import Mathlib

/-!
Verification development for the `image-metadata` repository: a shallow
embedding in Lean 4 of the repository's binary metadata decoders (TIFF/EXIF
directory decoder, ISOBMFF/HEIF box tree decoder, JPEG marker scanner),
together with theorems settling the specification claims about them.

Modelling conventions, used consistently below:

* Bytes are modelled as `Nat`; a byte buffer is a `List Nat`.
* A Rust `std::io::Cursor` over an in-memory buffer is a `Cursor`: the buffer
  plus a position.  All reads and seeks leave the buffer unchanged and only
  move the position.
* Machine integers (`u8`/`u16`/`u32`/`u64`/`usize`) are modelled as `Nat`,
  signed integers as `Int` via `to_signed`.  Where the source can underflow an
  unsigned subtraction (which panics in debug builds and leads to a failed
  read or an impossible allocation in release builds), the model returns the
  panic outcome; each such site is commented.
* Functions in the source that can fail only by panicking (`unwrap`,
  `panic!`, out-of-range indexing, underflow) are modelled in `Option`:
  `none` is the panic outcome, `some` the normal result.
* The TIFF decoder returns `Result<_, TiffError>` and can additionally panic,
  so it is modelled in `TOut`: `.panic` for panics, `.err` for `Err(TiffError
  (...))` values, `.ok` for `Ok` values.  `TiffError` in the source is a
  formatted `String`; the model represents each distinct `format!` site by a
  constructor of `TiffErrorKind` carrying the formatted-in values.
* Rust `String` values are modelled as their underlying UTF-8 byte sequences
  (`List Nat`); `String::from_utf8_lossy` is modelled as the identity on
  bytes.  Every string comparison performed by the program compares against a
  pure-ASCII literal, and a byte sequence lossy-decodes to a pure-ASCII
  string exactly when it consists of exactly those ASCII bytes, so all
  branching behaviour is preserved by this modelling.
* `f32`/`f64` values are never inspected by the program after creation; they
  are modelled symbolically (`F64`): either the raw bit pattern obtained from
  bytes, or a quotient of two integers as produced by `(a as f64) / (b as
  f64)`.  No claim depends on float arithmetic.
* Unbounded source loops (the TIFF IFD chain, which a crafted file can make
  diverge, and the box-tree recursion) take an explicit fuel argument; fuel
  exhaustion is the panic outcome and callers pass ample fuel.
-/

/-- UTF-8 encoding of one character, for rendering ASCII literals as byte
sequences. -/
def char_utf8 (c : Char) : List Nat :=
  let n := c.toNat
  if n < 0x80 then [n]
  else if n < 0x800 then [0xC0 + n / 64, 0x80 + n % 64]
  else if n < 0x10000 then [0xE0 + n / 4096, 0x80 + (n / 64) % 64, 0x80 + n % 64]
  else [0xF0 + n / 262144, 0x80 + (n / 4096) % 64, 0x80 + (n / 64) % 64, 0x80 + n % 64]

/-- The UTF-8 bytes of a string literal. -/
def str_bytes (s : String) : List Nat :=
  (s.data.map char_utf8).flatten

/-- `utils::Endianness`. -/
inductive Endianness where
  | Little
  | Big
deriving DecidableEq

/-- Big-endian value of a byte sequence (`<ty>::from_be_bytes`). -/
def be_nat (bs : List Nat) : Nat :=
  bs.foldl (fun a b => a * 256 + b) 0

/-- Little-endian value of a byte sequence (`<ty>::from_le_bytes`). -/
def le_nat (bs : List Nat) : Nat :=
  be_nat bs.reverse

/-- The `unpack!` macro: interpret bytes with the given endianness. -/
def unpack (e : Endianness) (bs : List Nat) : Nat :=
  match e with
  | .Little => le_nat bs
  | .Big => be_nat bs

/-- Two's-complement reinterpretation of a `w`-bit unsigned value as signed
(`as i8` / `i16::from_?e_bytes` / `i32::from_?e_bytes`). -/
def to_signed (w : Nat) (n : Nat) : Int :=
  if n < 2 ^ (w - 1) then (n : Int) else (n : Int) - 2 ^ w

/-- `std::io::Cursor` over an in-memory byte buffer. -/
structure Cursor where
  data : List Nat
  pos : Nat
deriving DecidableEq

/-- `read_exact` into an `n`-byte buffer: succeeds iff `n` bytes remain,
returning them and advancing the position; otherwise the caller's `unwrap`
panics (`none`). -/
def Cursor.readExact (c : Cursor) (n : Nat) : Option (List Nat × Cursor) :=
  if c.pos + n ≤ c.data.length then
    some ((c.data.drop c.pos).take n, ⟨c.data, c.pos + n⟩)
  else none

/-- One byte, as read by `read_unpack!(cursor, u8, _)`. -/
def Cursor.read_u8 (c : Cursor) : Option (Nat × Cursor) :=
  match c.readExact 1 with
  | none => none
  | some (bs, c2) => some (be_nat bs, c2)

/-- `read_unpack!(cursor, u16, Endianness::Big)`. -/
def Cursor.read_u16be (c : Cursor) : Option (Nat × Cursor) :=
  match c.readExact 2 with
  | none => none
  | some (bs, c2) => some (be_nat bs, c2)

/-- `read_unpack!(cursor, u32, Endianness::Big)`. -/
def Cursor.read_u32be (c : Cursor) : Option (Nat × Cursor) :=
  match c.readExact 4 with
  | none => none
  | some (bs, c2) => some (be_nat bs, c2)

/-- `read_unpack!(cursor, u64, Endianness::Big)`. -/
def Cursor.read_u64be (c : Cursor) : Option (Nat × Cursor) :=
  match c.readExact 8 with
  | none => none
  | some (bs, c2) => some (be_nat bs, c2)

/-- `utils::get_nibbles`: `(byte & 0x0F, (byte >> 4) & 0x0F)`. -/
def get_nibbles (byte : Nat) : Nat × Nat :=
  (byte % 16, (byte / 16) % 16)

/-- `utils::read_sized_string`: read exactly `size` bytes (panicking when
fewer remain) and drop every NUL byte. -/
def read_sized_string (c : Cursor) (size : Nat) : Option (List Nat × Cursor) :=
  match c.readExact size with
  | none => none
  | some (buf, c2) => some (buf.filter (fun b => b ≠ 0), c2)

/-- The byte-consuming core of `utils::read_c_string`: collect bytes until a
NUL (consumed) or the end of the buffer, returning the collected bytes and
the number of bytes consumed.  This loop uses `read`, which returns 0 at end
of input, so it never panics. -/
def read_c_string_bytes : List Nat → List Nat × Nat
  | [] => ([], 0)
  | b :: rest =>
      if b = 0 then ([], 1)
      else
        let (s, k) := read_c_string_bytes rest
        (b :: s, k + 1)

/-- `utils::read_c_string`. -/
def read_c_string (c : Cursor) : List Nat × Cursor :=
  let (s, k) := read_c_string_bytes (c.data.drop c.pos)
  (s, ⟨c.data, c.pos + k⟩)

/-!  ## TIFF/EXIF directory decoder (`tiff.rs`)  -/

/-- Outcome of a TIFF decoding function: a panic, an `Err(TiffError(..))`, or
an `Ok` value. -/
inductive TOut (ε : Type) (α : Type) where
  | panic : TOut ε α
  | err : ε → TOut ε α
  | ok : α → TOut ε α
deriving DecidableEq

/-- Whether a `TOut` is a structured (recoverable) error. -/
def TOut.isErr {ε α : Type} : TOut ε α → Bool
  | .err _ => true
  | _ => false

/-- `tiff::IFDEntryValue`.  `FLOAT`/`DOUBLE` carry the raw bit pattern the
source obtains from `f32`/`f64::from_?e_bytes`. -/
inductive IFDEntryValue where
  | BYTE (v : Nat)
  | ASCII (v : Nat)
  | SHORT (v : Nat)
  | LONG (v : Nat)
  | RATIONAL (a b : Nat)
  | SBYTE (v : Int)
  | UNDEFINED (v : Nat)
  | SSHORT (v : Int)
  | SLONG (v : Int)
  | SRATIONAL (a b : Int)
  | FLOAT (bits : Nat)
  | DOUBLE (bits : Nat)
deriving DecidableEq

/-- One constructor per `format!` site that builds a `TiffError` message in
`tiff.rs` (and `utils::vec_to_array`), carrying the values formatted in. -/
inductive TiffErrorKind where
  /-- "Encountered unknown TIFF value type: {t}" -/
  | unknownValueType (t : Nat)
  /-- "[Tag {tag}] Expected exactly one value (got {count})" -/
  | expectedExactlyOne (tag count : Nat)
  /-- "[Tag {tag}] Expected only ASCII values (got {v})" -/
  | expectedOnlyAscii (tag : Nat) (v : IFDEntryValue)
  /-- "[Tag {tag}] Expected value to be BYTE (got {v})" -/
  | expectedByte (tag : Nat) (v : IFDEntryValue)
  /-- "[Tag {tag}] Expected all values to be BYTE/ASCII/UNDEFINED (got {v})" -/
  | expectedBytesLike (tag : Nat) (v : IFDEntryValue)
  /-- "[Tag {tag}] Expected value to be SHORT (got {v})" -/
  | expectedShort (tag : Nat) (v : IFDEntryValue)
  /-- "[Tag {tag}] Expected value to be LONG (got {v})" -/
  | expectedLong (tag : Nat) (v : IFDEntryValue)
  /-- "[Tag {tag}] Expected value to be RATIONAL/SRATIONAL/DOUBLE (got {v})" -/
  | expectedRationalDouble (tag : Nat) (v : IFDEntryValue)
  /-- "Expected all values to be RATIONAL/SRATIONAL/DOUBLE (got {v})" -/
  | expectedAllRationalDouble (v : IFDEntryValue)
  /-- "Expected Vec of length {n}, but got {m}" (from `utils::vec_to_array`) -/
  | vecLen (n m : Nat)
  /-- "Expected only one value (got {n})" (from `get_rational_repr_from_ifd_entry`) -/
  | rationalExpectedOne (n : Nat)
  /-- "Expected value to be RATIONAL/SRATIONAL (got {v})" -/
  | rationalWrongType (v : IFDEntryValue)
  /-- "Expected value to be UNDEFINED (got {v})" -/
  | expectedUndefined (v : IFDEntryValue)
  /-- "Expected only one value (got {n})" (from `get_ushort_or_ulong_from_entry`) -/
  | ushortUlongExpectedOne (n : Nat)
  /-- "Expected value to be SHORT/LONG (got {v})" -/
  | ushortUlongWrongType (v : IFDEntryValue)
  /-- "Expected MM or II but got {bs} instead" -/
  | badMagic (bs : List Nat)
  /-- "Expected magic number to be 42, but got {n} instead" -/
  | badMagicNumber (n : Nat)
deriving DecidableEq

/-- `tiff::get_tiff_value_type_size`. -/
def get_tiff_value_type_size (value_type : Nat) : TOut TiffErrorKind Nat :=
  match value_type with
  | 1 => .ok 1
  | 2 => .ok 1
  | 3 => .ok 2
  | 4 => .ok 4
  | 5 => .ok 8
  | 6 => .ok 1
  | 7 => .ok 1
  | 8 => .ok 2
  | 9 => .ok 4
  | 10 => .ok 8
  | 11 => .ok 4
  | 12 => .ok 8
  | unknown => .err (.unknownValueType unknown)

/-- `tiff::IFDEntry`. -/
structure IFDEntry where
  tag : Nat
  values : List IFDEntryValue
deriving DecidableEq

/-- `tiff::read_ifd_entry_values`: the `while values.len() < value_count`
loop, by recursion on the number of values still to read.  Each iteration
reads `value_type_size` bytes (`read_exact` + `unwrap`: panic on truncation)
and decodes one value; indexing `buf[..]` beyond its length is likewise a
panic.  The `value_type` dispatch mirrors the source arm for arm. -/
def read_ifd_entry_values (value_type value_type_size : Nat) (value_count : Nat)
    (endianness : Endianness) (c : Cursor) : TOut TiffErrorKind (List IFDEntryValue × Cursor) :=
  match value_count with
  | 0 => .ok ([], c)
  | n + 1 =>
    match c.readExact value_type_size with
    | none => .panic
    | some (buf, c2) =>
      let one : TOut TiffErrorKind IFDEntryValue :=
        match value_type with
        | 1 =>
          match buf with
          | b0 :: _ => .ok (.BYTE b0)
          | _ => .panic
        | 2 =>
          match buf with
          | b0 :: _ => .ok (.ASCII b0)
          | _ => .panic
        | 3 =>
          match buf with
          | b0 :: b1 :: _ =>
            .ok (.SHORT (match endianness with
              | .Big => be_nat [b0, b1]
              | .Little => le_nat [b0, b1]))
          | _ => .panic
        | 4 =>
          match buf with
          | b0 :: b1 :: b2 :: b3 :: _ =>
            .ok (.LONG (match endianness with
              | .Big => be_nat [b0, b1, b2, b3]
              | .Little => le_nat [b0, b1, b2, b3]))
          | _ => .panic
        | 5 =>
          match buf with
          | b0 :: b1 :: b2 :: b3 :: b4 :: b5 :: b6 :: b7 :: _ =>
            match endianness with
            | .Big => .ok (.RATIONAL (be_nat [b0, b1, b2, b3]) (be_nat [b4, b5, b6, b7]))
            | .Little => .ok (.RATIONAL (le_nat [b0, b1, b2, b3]) (le_nat [b4, b5, b6, b7]))
          | _ => .panic
        | 6 =>
          match buf with
          | b0 :: _ => .ok (.SBYTE (to_signed 8 b0))
          | _ => .panic
        | 7 =>
          match buf with
          | b0 :: _ => .ok (.UNDEFINED b0)
          | _ => .panic
        | 8 =>
          match buf with
          | b0 :: b1 :: _ =>
            .ok (.SSHORT (match endianness with
              | .Big => to_signed 16 (be_nat [b0, b1])
              | .Little => to_signed 16 (le_nat [b0, b1])))
          | _ => .panic
        | 9 =>
          match buf with
          | b0 :: b1 :: b2 :: b3 :: _ =>
            -- Source: both endianness arms call `i32::from_be_bytes(data)`;
            -- the `Endianness::Little` arm does NOT use `from_le_bytes`.
            .ok (.SLONG (match endianness with
              | .Big => to_signed 32 (be_nat [b0, b1, b2, b3])
              | .Little => to_signed 32 (be_nat [b0, b1, b2, b3])))
          | _ => .panic
        | 10 =>
          match buf with
          | b0 :: b1 :: b2 :: b3 :: b4 :: b5 :: b6 :: b7 :: _ =>
            match endianness with
            | .Big =>
              .ok (.SRATIONAL (to_signed 32 (be_nat [b0, b1, b2, b3]))
                (to_signed 32 (be_nat [b4, b5, b6, b7])))
            | .Little =>
              .ok (.SRATIONAL (to_signed 32 (le_nat [b0, b1, b2, b3]))
                (to_signed 32 (le_nat [b4, b5, b6, b7])))
          | _ => .panic
        | 11 =>
          match buf with
          | b0 :: b1 :: b2 :: b3 :: _ =>
            .ok (.FLOAT (match endianness with
              | .Big => be_nat [b0, b1, b2, b3]
              | .Little => le_nat [b0, b1, b2, b3]))
          | _ => .panic
        | 12 =>
          match buf with
          | b0 :: b1 :: b2 :: b3 :: b4 :: b5 :: b6 :: b7 :: _ =>
            .ok (.DOUBLE (match endianness with
              | .Big => be_nat [b0, b1, b2, b3, b4, b5, b6, b7]
              | .Little => le_nat [b0, b1, b2, b3, b4, b5, b6, b7]))
          | _ => .panic
        | unknown => .err (.unknownValueType unknown)
      match one with
      | .panic => .panic
      | .err er => .err er
      | .ok v =>
        match read_ifd_entry_values value_type value_type_size n endianness c2 with
        | .panic => .panic
        | .err er => .err er
        | .ok (vs, c3) => .ok (v :: vs, c3)

/-- `tiff::read_ifd_entry`: tag, value type and count (each read with the
declared endianness), then either inline values or a seek to the stored
offset, and in all cases a final `set_position(original_position + 4)` so the
directory scan resumes just past the 12-byte entry. -/
def read_ifd_entry (c : Cursor) (endianness : Endianness) :
    TOut TiffErrorKind (IFDEntry × Cursor) :=
  match c.readExact 2 with
  | none => .panic
  | some (tag_bs, c1) =>
  let tag := unpack endianness tag_bs
  match c1.readExact 2 with
  | none => .panic
  | some (vt_bs, c2) =>
  let value_type := unpack endianness vt_bs
  match c2.readExact 4 with
  | none => .panic
  | some (vc_bs, c3) =>
  let value_count := unpack endianness vc_bs
  match get_tiff_value_type_size value_type with
  | .panic => .panic
  | .err er => .err er
  | .ok value_type_size =>
  let size_of_all_values := value_count * value_type_size
  let original_position := c3.pos
  -- "If the size of all values is >4 then we need to seek to that position"
  let seeked : Option Cursor :=
    if 4 < size_of_all_values then
      match c3.readExact 4 with
      | none => none
      | some (off_bs, c4) => some ⟨c4.data, unpack endianness off_bs⟩
    else some c3
  match seeked with
  | none => .panic
  | some c5 =>
  match read_ifd_entry_values value_type value_type_size value_count endianness c5 with
  | .panic => .panic
  | .err er => .err er
  | .ok (values, c6) =>
    .ok (⟨tag, values⟩, ⟨c6.data, original_position + 4⟩)

/-- The `for _ in 0..ifd_entry_count` loop of `tiff::read_ifd`. -/
def read_ifd_entries (n : Nat) (c : Cursor) (endianness : Endianness) :
    TOut TiffErrorKind (List IFDEntry × Cursor) :=
  match n with
  | 0 => .ok ([], c)
  | m + 1 =>
    match read_ifd_entry c endianness with
    | .panic => .panic
    | .err er => .err er
    | .ok (en, c2) =>
      match read_ifd_entries m c2 endianness with
      | .panic => .panic
      | .err er => .err er
      | .ok (ens, c3) => .ok (en :: ens, c3)

/-- `tiff::read_ifd`: a 2-byte entry count followed by that many entries. -/
def read_ifd (c : Cursor) (endianness : Endianness) :
    TOut TiffErrorKind (List IFDEntry × Cursor) :=
  match c.readExact 2 with
  | none => .panic
  | some (cnt_bs, c1) =>
    read_ifd_entries (unpack endianness cnt_bs) c1 endianness

/-- `tiff::IFDEntry::get_single_value`. -/
def IFDEntry.get_single_value (e : IFDEntry) : TOut TiffErrorKind IFDEntryValue :=
  match e.values with
  | [v] => .ok v
  | vs => .err (.expectedExactlyOne e.tag vs.length)

/-- `impl TryInto<String> for IFDEntry`: collect non-NUL ASCII value bytes,
failing on any non-ASCII-typed value. -/
def try_into_string_values (tag : Nat) : List IFDEntryValue → TOut TiffErrorKind (List Nat)
  | [] => .ok []
  | .ASCII 0 :: rest => try_into_string_values tag rest
  | .ASCII b :: rest =>
    match try_into_string_values tag rest with
    | .ok bs => .ok (b :: bs)
    | .err er => .err er
    | .panic => .panic
  | v :: _ => .err (.expectedOnlyAscii tag v)

/-- `impl TryInto<String> for IFDEntry` (entry level). -/
def IFDEntry.try_into_string (e : IFDEntry) : TOut TiffErrorKind (List Nat) :=
  try_into_string_values e.tag e.values

/-- `impl TryInto<u8> for IFDEntry`. -/
def IFDEntry.try_into_u8 (e : IFDEntry) : TOut TiffErrorKind Nat :=
  match e.get_single_value with
  | .panic => .panic
  | .err er => .err er
  | .ok v =>
    match v with
    | .BYTE b => .ok b
    | _ => .err (.expectedByte e.tag v)

/-- `impl TryInto<Vec<u8>> for IFDEntry`. -/
def try_into_vec_u8_values (tag : Nat) : List IFDEntryValue → TOut TiffErrorKind (List Nat)
  | [] => .ok []
  | v :: rest =>
    match v with
    | .BYTE b | .ASCII b | .UNDEFINED b =>
      match try_into_vec_u8_values tag rest with
      | .ok bs => .ok (b :: bs)
      | .err er => .err er
      | .panic => .panic
    | _ => .err (.expectedBytesLike tag v)

/-- `impl TryInto<Vec<u8>> for IFDEntry` (entry level). -/
def IFDEntry.try_into_vec_u8 (e : IFDEntry) : TOut TiffErrorKind (List Nat) :=
  try_into_vec_u8_values e.tag e.values

/-- `impl TryInto<u16> for IFDEntry`. -/
def IFDEntry.try_into_u16 (e : IFDEntry) : TOut TiffErrorKind Nat :=
  match e.get_single_value with
  | .panic => .panic
  | .err er => .err er
  | .ok v =>
    match v with
    | .SHORT s => .ok s
    | _ => .err (.expectedShort e.tag v)

/-- `impl TryInto<u32> for IFDEntry`. -/
def IFDEntry.try_into_u32 (e : IFDEntry) : TOut TiffErrorKind Nat :=
  match e.get_single_value with
  | .panic => .panic
  | .err er => .err er
  | .ok v =>
    match v with
    | .LONG l => .ok l
    | _ => .err (.expectedLong e.tag v)

/-- Symbolic model of an `f64` value: either a raw bit pattern or the
quotient `(a as f64) / (b as f64)`.  The program never inspects these. -/
inductive F64 where
  | ofBits (bits : Nat)
  | ratDiv (a b : Int)
deriving DecidableEq

/-- `impl TryInto<f64> for IFDEntry`. -/
def IFDEntry.try_into_f64 (e : IFDEntry) : TOut TiffErrorKind F64 :=
  match e.get_single_value with
  | .panic => .panic
  | .err er => .err er
  | .ok v =>
    match v with
    | .RATIONAL a b => .ok (.ratDiv a b)
    | .SRATIONAL a b => .ok (.ratDiv a b)
    | .DOUBLE bits => .ok (.ofBits bits)
    | _ => .err (.expectedRationalDouble e.tag v)

/-- `impl TryInto<Vec<f64>> for IFDEntry`. -/
def try_into_vec_f64_values : List IFDEntryValue → TOut TiffErrorKind (List F64)
  | [] => .ok []
  | v :: rest =>
    let one : TOut TiffErrorKind F64 :=
      match v with
      | .RATIONAL a b => .ok (.ratDiv a b)
      | .SRATIONAL a b => .ok (.ratDiv a b)
      | .DOUBLE bits => .ok (.ofBits bits)
      | _ => .err (.expectedAllRationalDouble v)
    match one with
    | .panic => .panic
    | .err er => .err er
    | .ok f =>
      match try_into_vec_f64_values rest with
      | .ok fs => .ok (f :: fs)
      | .err er => .err er
      | .panic => .panic

/-- `impl TryInto<Vec<f64>> for IFDEntry` (entry level). -/
def IFDEntry.try_into_vec_f64 (e : IFDEntry) : TOut TiffErrorKind (List F64) :=
  try_into_vec_f64_values e.values

/-- `utils::vec_to_array`, with the call sites' wrapping of the error message
into a `TiffError`. -/
def vec_to_array {α : Type} (n : Nat) (v : List α) : TOut TiffErrorKind (List α) :=
  if v.length = n then .ok v else .err (.vecLen n v.length)

/-- `tiff::get_rational_repr_from_ifd_entry`: the exact "num/den" string, as
bytes. -/
def get_rational_repr_from_ifd_entry (entry : IFDEntry) : TOut TiffErrorKind (List Nat) :=
  if entry.values.length ≠ 1 then .err (.rationalExpectedOne entry.values.length)
  else
    match entry.values.headD (.BYTE 0) with
    | .RATIONAL a b => .ok (str_bytes (toString a ++ "/" ++ toString b))
    | .SRATIONAL a b => .ok (str_bytes (toString a ++ "/" ++ toString b))
    | v => .err (.rationalWrongType v)

/-- `tiff::get_string_from_entry_with_undefined_values`. -/
def get_string_from_undefined_values : List IFDEntryValue → TOut TiffErrorKind (List Nat)
  | [] => .ok []
  | v :: rest =>
    match v with
    | .UNDEFINED b =>
      match get_string_from_undefined_values rest with
      | .ok bs => .ok (b :: bs)
      | .err er => .err er
      | .panic => .panic
    | _ => .err (.expectedUndefined v)

/-- `tiff::get_string_from_entry_with_undefined_values` (entry level). -/
def get_string_from_entry_with_undefined_values (entry : IFDEntry) :
    TOut TiffErrorKind (List Nat) :=
  get_string_from_undefined_values entry.values

/-- `tiff::get_ushort_or_ulong_from_entry`. -/
def get_ushort_or_ulong_from_entry (entry : IFDEntry) : TOut TiffErrorKind Nat :=
  if entry.values.length ≠ 1 then .err (.ushortUlongExpectedOne entry.values.length)
  else
    match entry.values.headD (.BYTE 0) with
    | .SHORT v => .ok v
    | .LONG v => .ok v
    | v => .err (.ushortUlongWrongType v)

/-- `tiff::TiffTag`: the semantic tag enumeration.  String payloads are UTF-8
byte sequences, `[f64; N]` payloads are `List F64` whose length the
projection checks via `vec_to_array`. -/
inductive TiffTag where
  | Unknown (entry : IFDEntry)
  | GPSVersionID (v : List Nat)
  | GPSLatitudeRef (s : List Nat)
  | GPSLatitude (v : List F64)
  | GPSLongitudeRef (s : List Nat)
  | GPSLongitude (v : List F64)
  | GPSAltitudeRef (s : List Nat)
  | GPSAltitude (v : F64)
  | GPSTimeStamp (v : List F64)
  | GPSSatellites (s : List Nat)
  | GPSStatus (s : List Nat)
  | GPSImgDirectionRef (s : List Nat)
  | GPSImgDirection (v : F64)
  | GPSMapDatum (s : List Nat)
  | GPSDateStamp (s : List Nat)
  | Compression (s : List Nat)
  | ImageDescription (s : List Nat)
  | Make (s : List Nat)
  | Model (s : List Nat)
  | Orientation (v : Nat)
  | XResolution (v : F64)
  | YResolution (v : F64)
  | ResolutionUnit (s : List Nat)
  | Software (s : List Nat)
  | DateTime (s : List Nat)
  | Artist (s : List Nat)
  | Copyright (s : List Nat)
  | ExposureTime (s : List Nat)
  | FNumber (s : List Nat)
  | ExifIfdPointer (v : Nat)
  | ExposureProgram (s : List Nat)
  | GpsIfdPointer (v : Nat)
  | ExifVersion (s : List Nat)
  | DateTimeOriginal (s : List Nat)
  | DateTimeDigitized (s : List Nat)
  | CompressedBitsPerPixel (s : List Nat)
  | ShutterSpeedValue (s : List Nat)
  | ApertureValue (s : List Nat)
  | ExposureBiasValue (s : List Nat)
  | MaxApertureValue (s : List Nat)
  | MeteringMode (s : List Nat)
  | LightSource (s : List Nat)
  | Flash (s : List Nat)
  | FocalLength (s : List Nat)
  | MakerNote (v : List Nat)
  | UserComment (s : List Nat)
  | SubsecTime (s : List Nat)
  | SubsecTimeOriginal (s : List Nat)
  | SubsecTimeDigitized (s : List Nat)
  | FlashpixVersion (s : List Nat)
  | PixelXDimension (v : Nat)
  | PixelYDimension (v : Nat)
  | FocalPlaneXResolution (s : List Nat)
  | FocalPlaneYResolution (s : List Nat)
  | FocalPlaneResolutionUnit (s : List Nat)
  | SensingMethod (s : List Nat)
  | ExposureMode (s : List Nat)
  | WhiteBalance (s : List Nat)
  | DigitalZoomRatioTag (s : List Nat)
  | FocalLengthIn35mmFilm (v : Nat)
  | SceneCaptureType (s : List Nat)
  | GainControl (s : List Nat)
  | Contrast (s : List Nat)
  | Saturation (s : List Nat)
  | Sharpness (s : List Nat)
  | SubjectDistanceRange (s : List Nat)

/-- `impl TryFrom<IFDEntry> for TiffTag`: the per-tag-id projection table,
arm for arm as in the source.  (The `DigitalZoomRatio` variant carries a
`Tag` suffix here purely as a Lean naming accommodation.) -/
def TiffTag.try_from (entry : IFDEntry) : TOut TiffErrorKind TiffTag :=
  match entry.tag with
  | 0 =>
    match entry.try_into_vec_u8 with
    | .panic => .panic
    | .err er => .err er
    | .ok v =>
      match vec_to_array 4 v with
      | .ok arr => .ok (.GPSVersionID arr)
      | .err er => .err er
      | .panic => .panic
  | 1 =>
    match entry.try_into_string with
    | .ok s => .ok (.GPSLatitudeRef s)
    | .err er => .err er
    | .panic => .panic
  | 2 =>
    match entry.try_into_vec_f64 with
    | .panic => .panic
    | .err er => .err er
    | .ok v =>
      match vec_to_array 3 v with
      | .ok arr => .ok (.GPSLatitude arr)
      | .err er => .err er
      | .panic => .panic
  | 3 =>
    match entry.try_into_string with
    | .ok s => .ok (.GPSLongitudeRef s)
    | .err er => .err er
    | .panic => .panic
  | 4 =>
    match entry.try_into_vec_f64 with
    | .panic => .panic
    | .err er => .err er
    | .ok v =>
      match vec_to_array 3 v with
      | .ok arr => .ok (.GPSLongitude arr)
      | .err er => .err er
      | .panic => .panic
  | 5 =>
    match entry.try_into_u8 with
    | .panic => .panic
    | .err er => .err er
    | .ok v =>
      .ok (.GPSAltitudeRef (str_bytes (match v with
        | 0 => "Above sea level"
        | 1 => "Below sea level"
        | _ => "Invalid")))
  | 6 =>
    match entry.try_into_f64 with
    | .ok v => .ok (.GPSAltitude v)
    | .err er => .err er
    | .panic => .panic
  | 7 =>
    match entry.try_into_vec_f64 with
    | .panic => .panic
    | .err er => .err er
    | .ok v =>
      match vec_to_array 3 v with
      | .ok arr => .ok (.GPSTimeStamp arr)
      | .err er => .err er
      | .panic => .panic
  | 8 =>
    match entry.try_into_string with
    | .ok s => .ok (.GPSSatellites s)
    | .err er => .err er
    | .panic => .panic
  | 9 =>
    match entry.try_into_string with
    | .ok s => .ok (.GPSStatus s)
    | .err er => .err er
    | .panic => .panic
  | 16 =>
    match entry.try_into_string with
    | .ok s => .ok (.GPSImgDirectionRef s)
    | .err er => .err er
    | .panic => .panic
  | 17 =>
    match entry.try_into_f64 with
    | .ok v => .ok (.GPSImgDirection v)
    | .err er => .err er
    | .panic => .panic
  | 18 =>
    match entry.try_into_string with
    | .ok s => .ok (.GPSMapDatum s)
    | .err er => .err er
    | .panic => .panic
  | 29 =>
    match entry.try_into_string with
    | .ok s => .ok (.GPSDateStamp s)
    | .err er => .err er
    | .panic => .panic
  | 259 =>
    match entry.try_into_u16 with
    | .panic => .panic
    | .err er => .err er
    | .ok v =>
      .ok (.Compression (str_bytes (match v with
        | 1 => "No compression"
        | 2 => "CCITT modified Huffman RLE"
        | 3 => "CCITT Group 3 fax encoding"
        | 4 => "CCITT Group 4 fax encoding"
        | 5 => "LZW"
        | 6 => "JPEG (old-style)"
        | 7 => "JPEG (new-style)"
        | 8 => "Deflate"
        | 32773 => "PackBits"
        | _ => "Invalid/Unknown")))
  | 270 =>
    match entry.try_into_string with
    | .ok s => .ok (.ImageDescription s)
    | .err er => .err er
    | .panic => .panic
  | 271 =>
    match entry.try_into_string with
    | .ok s => .ok (.Make s)
    | .err er => .err er
    | .panic => .panic
  | 272 =>
    match entry.try_into_string with
    | .ok s => .ok (.Model s)
    | .err er => .err er
    | .panic => .panic
  | 282 =>
    match entry.try_into_f64 with
    | .ok v => .ok (.XResolution v)
    | .err er => .err er
    | .panic => .panic
  | 283 =>
    match entry.try_into_f64 with
    | .ok v => .ok (.YResolution v)
    | .err er => .err er
    | .panic => .panic
  | 296 =>
    match entry.try_into_u16 with
    | .panic => .panic
    | .err er => .err er
    | .ok v =>
      .ok (.ResolutionUnit (str_bytes (match v with
        | 1 => "none"
        | 2 => "inch"
        | 3 => "centimeter"
        | _ => "invalid")))
  | 274 =>
    match entry.try_into_u16 with
    | .ok v => .ok (.Orientation v)
    | .err er => .err er
    | .panic => .panic
  | 305 =>
    match entry.try_into_string with
    | .ok s => .ok (.Software s)
    | .err er => .err er
    | .panic => .panic
  | 306 =>
    match entry.try_into_string with
    | .ok s => .ok (.DateTime s)
    | .err er => .err er
    | .panic => .panic
  | 315 =>
    match entry.try_into_string with
    | .ok s => .ok (.Artist s)
    | .err er => .err er
    | .panic => .panic
  | 33432 =>
    match entry.try_into_string with
    | .ok s => .ok (.Copyright s)
    | .err er => .err er
    | .panic => .panic
  | 33434 =>
    match get_rational_repr_from_ifd_entry entry with
    | .ok s => .ok (.ExposureTime s)
    | .err er => .err er
    | .panic => .panic
  | 33437 =>
    match get_rational_repr_from_ifd_entry entry with
    | .ok s => .ok (.FNumber s)
    | .err er => .err er
    | .panic => .panic
  | 34665 =>
    match entry.try_into_u32 with
    | .ok v => .ok (.ExifIfdPointer v)
    | .err er => .err er
    | .panic => .panic
  | 34850 =>
    match entry.try_into_u16 with
    | .panic => .panic
    | .err er => .err er
    | .ok v =>
      .ok (.ExposureProgram (str_bytes (match v with
        | 0 => "Not defined"
        | 1 => "Manual"
        | 2 => "Normal program"
        | 3 => "Aperture priority"
        | 4 => "Shutter priority"
        | 5 => "Creative program (biased toward depth of field)"
        | 6 => "Action program (biased toward fast shutter speed)"
        | 7 => "Portrait mode (for closeup photos with the background out of focus)"
        | 8 => "Landscape mode (for landscape photos with the background in focus)"
        | _ => "Invalid")))
  | 34853 =>
    match entry.try_into_u32 with
    | .ok v => .ok (.GpsIfdPointer v)
    | .err er => .err er
    | .panic => .panic
  | 36864 =>
    match get_string_from_entry_with_undefined_values entry with
    | .ok s => .ok (.ExifVersion s)
    | .err er => .err er
    | .panic => .panic
  | 36867 =>
    match entry.try_into_string with
    | .ok s => .ok (.DateTimeOriginal s)
    | .err er => .err er
    | .panic => .panic
  | 36868 =>
    match entry.try_into_string with
    | .ok s => .ok (.DateTimeDigitized s)
    | .err er => .err er
    | .panic => .panic
  | 37122 =>
    match get_rational_repr_from_ifd_entry entry with
    | .ok s => .ok (.CompressedBitsPerPixel s)
    | .err er => .err er
    | .panic => .panic
  | 37377 =>
    match get_rational_repr_from_ifd_entry entry with
    | .ok s => .ok (.ShutterSpeedValue s)
    | .err er => .err er
    | .panic => .panic
  | 37378 =>
    match get_rational_repr_from_ifd_entry entry with
    | .ok s => .ok (.ApertureValue s)
    | .err er => .err er
    | .panic => .panic
  | 37380 =>
    match get_rational_repr_from_ifd_entry entry with
    | .ok s => .ok (.ExposureBiasValue s)
    | .err er => .err er
    | .panic => .panic
  | 37381 =>
    match get_rational_repr_from_ifd_entry entry with
    | .ok s => .ok (.MaxApertureValue s)
    | .err er => .err er
    | .panic => .panic
  | 37383 =>
    match entry.try_into_u16 with
    | .panic => .panic
    | .err er => .err er
    | .ok v =>
      .ok (.MeteringMode (str_bytes (match v with
        | 0 => "Unknown"
        | 1 => "Average"
        | 2 => "CenterWeightedAverage"
        | 3 => "Spot"
        | 4 => "MultiSpot"
        | 5 => "Pattern"
        | 6 => "Partial"
        | 255 => "Other"
        | _ => "Invalid")))
  | 37384 =>
    match entry.try_into_u16 with
    | .panic => .panic
    | .err er => .err er
    | .ok v =>
      .ok (.LightSource (str_bytes (match v with
        | 0 => "Unknown"
        | 1 => "Daylight"
        | 2 => "Fluorescent"
        | 3 => "Tungsten (incandescent light)"
        | 4 => "Flash"
        | 9 => "Fine weather"
        | 10 => "Cloudy weather"
        | 11 => "Shade"
        | 12 => "Daylight fluorescent (D 5700 - 7100K)"
        | 13 => "Day white fluorescent (N 4600 - 5400K)"
        | 14 => "Cool white fluorescent (W 3900 - 4500K)"
        | 15 => "White fluorescent (WW 3200 - 3700K)"
        | 17 => "Standard light A"
        | 18 => "Standard light B"
        | 19 => "Standard light C"
        | 20 => "D55"
        | 21 => "D65"
        | 22 => "D75"
        | 23 => "D50"
        | 24 => "ISO studio tungsten"
        | 255 => "Other light source"
        | _ => "Invalid")))
  | 37385 =>
    match entry.try_into_u16 with
    | .panic => .panic
    | .err er => .err er
    | .ok v =>
      .ok (.Flash (str_bytes (match v with
        | 0x0000 => "Flash did not fire"
        | 0x0001 => "Flash fired"
        | 0x0005 => "Strobe return light not detected"
        | 0x0007 => "Strobe return light detected"
        | 0x0009 => "Flash fired, compulsory flash mode"
        | 0x000D => "Flash fired, compulsory flash mode, return light not detected"
        | 0x000F => "Flash fired, compulsory flash mode, return light detected"
        | 0x0010 => "Flash did not fire, compulsory flash mode"
        | 0x0018 => "Flash did not fire, auto mode"
        | 0x0019 => "Flash fired, auto mode"
        | 0x001D => "Flash fired, auto mode, return light not detected"
        | 0x001F => "Flash fired, auto mode, return light detected"
        | 0x0020 => "No flash function"
        | 0x0041 => "Flash fired, red-eye reduction mode"
        | 0x0045 => "Flash fired, red-eye reduction mode, return light not detected"
        | 0x0047 => "Flash fired, red-eye reduction mode, return light detected"
        | 0x0049 => "Flash fired, compulsory flash mode, red-eye reduction mode"
        | 0x004D => "Flash fired, compulsory flash mode, red-eye reduction mode, return light not detected"
        | 0x004F => "Flash fired, compulsory flash mode, red-eye reduction mode, return light detected"
        | 0x0059 => "Flash fired, auto mode, red-eye reduction mode"
        | 0x005D => "Flash fired, auto mode, return light not detected, red-eye reduction mode"
        | 0x005F => "Flash fired, auto mode, return light detected, red-eye reduction mode"
        | _ => "Invalid")))
  | 37386 =>
    match get_rational_repr_from_ifd_entry entry with
    | .ok s => .ok (.FocalLength s)
    | .err er => .err er
    | .panic => .panic
  | 37500 =>
    match entry.try_into_vec_u8 with
    | .ok v => .ok (.MakerNote v)
    | .err er => .err er
    | .panic => .panic
  | 37510 =>
    match entry.try_into_vec_u8 with
    | .panic => .panic
    | .err er => .err er
    | .ok data =>
      -- `data[0..8]` panics when fewer than 8 bytes are present
      if data.length < 8 then .panic
      else
        -- the encoding label is computed but every arm of the subsequent
        -- match renders the remainder the same way (source TODO:
        -- "Properly decode JIS/Unicode?")
        let _encoding : List Nat :=
          if data.take 8 = str_bytes "ASCII\x00\x00\x00" then str_bytes "ascii"
          else if data.take 8 = str_bytes "JIS\x00\x00\x00\x00\x00" then str_bytes "jis"
          else if data.take 8 = str_bytes "UNICODE\x00" then str_bytes "unicode"
          else str_bytes "unknown"
        -- `&data[8..data.len() - 1]` panics when the slice bounds cross,
        -- i.e. when the payload is exactly 8 bytes long
        if data.length < 9 then .panic
        else .ok (.UserComment ((data.drop 8).take (data.length - 9)))
  | 37520 =>
    match entry.try_into_string with
    | .ok s => .ok (.SubsecTime s)
    | .err er => .err er
    | .panic => .panic
  | 37521 =>
    match entry.try_into_string with
    | .ok s => .ok (.SubsecTimeOriginal s)
    | .err er => .err er
    | .panic => .panic
  | 37522 =>
    match entry.try_into_string with
    | .ok s => .ok (.SubsecTimeDigitized s)
    | .err er => .err er
    | .panic => .panic
  | 40960 =>
    match get_string_from_entry_with_undefined_values entry with
    | .ok s => .ok (.FlashpixVersion s)
    | .err er => .err er
    | .panic => .panic
  | 40962 =>
    match get_ushort_or_ulong_from_entry entry with
    | .ok v => .ok (.PixelXDimension v)
    | .err er => .err er
    | .panic => .panic
  | 40963 =>
    match get_ushort_or_ulong_from_entry entry with
    | .ok v => .ok (.PixelYDimension v)
    | .err er => .err er
    | .panic => .panic
  | 41486 =>
    match get_rational_repr_from_ifd_entry entry with
    | .ok s => .ok (.FocalPlaneXResolution s)
    | .err er => .err er
    | .panic => .panic
  | 41487 =>
    match get_rational_repr_from_ifd_entry entry with
    | .ok s => .ok (.FocalPlaneYResolution s)
    | .err er => .err er
    | .panic => .panic
  | 41488 =>
    match entry.try_into_u16 with
    | .panic => .panic
    | .err er => .err er
    | .ok v =>
      .ok (.FocalPlaneResolutionUnit (str_bytes (match v with
        | 1 => "none"
        | 2 => "inch"
        | 3 => "centimeter"
        | _ => "invalid")))
  | 41495 =>
    match entry.try_into_u16 with
    | .panic => .panic
    | .err er => .err er
    | .ok v =>
      .ok (.SensingMethod (str_bytes (match v with
        | 1 => "Not defined"
        | 2 => "One-chip color area sensor"
        | 3 => "Two-chip color area sensor"
        | 4 => "Three-chip color area sensor"
        | 5 => "Color sequential area sensor"
        | 7 => "Trilinear sensor"
        | 8 => "Color sequential linear sensor"
        | _ => "Invalid")))
  | 41986 =>
    match entry.try_into_u16 with
    | .panic => .panic
    | .err er => .err er
    | .ok v =>
      .ok (.ExposureMode (str_bytes (match v with
        | 0 => "Auto exposure"
        | 1 => "Manual exposure"
        | 2 => "Auto bracket"
        | _ => "Invalid")))
  | 41987 =>
    match entry.try_into_u16 with
    | .panic => .panic
    | .err er => .err er
    | .ok v =>
      .ok (.WhiteBalance (str_bytes (match v with
        | 0 => "Auto white balance"
        | 1 => "Manual white balance"
        | _ => "Invalid")))
  | 41988 =>
    match get_rational_repr_from_ifd_entry entry with
    | .ok s => .ok (.DigitalZoomRatioTag s)
    | .err er => .err er
    | .panic => .panic
  | 41989 =>
    match entry.try_into_u16 with
    | .ok v => .ok (.FocalLengthIn35mmFilm v)
    | .err er => .err er
    | .panic => .panic
  | 41990 =>
    match entry.try_into_u16 with
    | .panic => .panic
    | .err er => .err er
    | .ok v =>
      .ok (.SceneCaptureType (str_bytes (match v with
        | 0 => "Standard"
        | 1 => "Landscape"
        | 2 => "Portrait"
        | 3 => "Night scene"
        | _ => "Invalid")))
  | 41991 =>
    match entry.try_into_u16 with
    | .panic => .panic
    | .err er => .err er
    | .ok v =>
      .ok (.GainControl (str_bytes (match v with
        | 0 => "None"
        | 1 => "Low gain up"
        | 2 => "High gain up"
        | 3 => "Low gain down"
        | 4 => "High gain down"
        | _ => "Invalid")))
  | 41992 =>
    match entry.try_into_u16 with
    | .panic => .panic
    | .err er => .err er
    | .ok v =>
      .ok (.Contrast (str_bytes (match v with
        | 0 => "Normal"
        | 1 => "Soft"
        | 2 => "Hard"
        | _ => "Invalid")))
  | 41993 =>
    match entry.try_into_u16 with
    | .panic => .panic
    | .err er => .err er
    | .ok v =>
      .ok (.Saturation (str_bytes (match v with
        | 0 => "Normal"
        | 1 => "Low saturation"
        | 2 => "High saturation"
        | _ => "Invalid")))
  | 41994 =>
    match entry.try_into_u16 with
    | .panic => .panic
    | .err er => .err er
    | .ok v =>
      .ok (.Sharpness (str_bytes (match v with
        | 0 => "Normal"
        | 1 => "Soft"
        | 2 => "Hard"
        | _ => "Invalid")))
  | 41996 =>
    match entry.try_into_u16 with
    | .panic => .panic
    | .err er => .err er
    | .ok v =>
      .ok (.SubjectDistanceRange (str_bytes (match v with
        | 0 => "Unknown"
        | 1 => "Macro"
        | 2 => "Close view"
        | 3 => "Distant view"
        | _ => "Invalid")))
  | _ => .ok (.Unknown entry)

/-- `tiff::Tiff`. -/
structure Tiff where
  tags : List TiffTag
  endianness : Endianness

/-- `tiff::ifd_entries_to_tiff_tags`. -/
def ifd_entries_to_tiff_tags : List IFDEntry → TOut TiffErrorKind (List TiffTag)
  | [] => .ok []
  | en :: rest =>
    match TiffTag.try_from en with
    | .panic => .panic
    | .err er => .err er
    | .ok t =>
      match ifd_entries_to_tiff_tags rest with
      | .panic => .panic
      | .err er => .err er
      | .ok ts => .ok (t :: ts)

/-- The `loop { read offset; if 0 break; seek; read_ifd }` IFD chain of
`tiff::read_tiff`.  A crafted file can make this loop forever (offsets can
point back at themselves), so the model takes fuel; fuel exhaustion is the
divergence/panic outcome and callers pass ample fuel. -/
def ifd_chain_loop (endianness : Endianness) (acc : List IFDEntry) (c : Cursor) :
    Nat → TOut TiffErrorKind (List IFDEntry × Cursor)
  | 0 => .panic
  | fuel + 1 =>
    match c.readExact 4 with
    | none => .panic
    | some (off_bs, c1) =>
      let offset := unpack endianness off_bs
      -- Offset of zero means no more IFDs
      if offset = 0 then .ok (acc, c1)
      else
        match read_ifd ⟨c1.data, offset⟩ endianness with
        | .panic => .panic
        | .err er => .err er
        | .ok (es, c2) => ifd_chain_loop endianness (acc ++ es) c2 fuel

/-- The `for tag in &tags` pass of `tiff::read_tiff` that follows
`ExifIfdPointer`/`GpsIfdPointer` tags and collects the extra entries. -/
def extra_entries_loop (endianness : Endianness) (acc : List IFDEntry) (c : Cursor) :
    List TiffTag → TOut TiffErrorKind (List IFDEntry × Cursor)
  | [] => .ok (acc, c)
  | t :: rest =>
    match t with
    | .ExifIfdPointer ifd_ptr =>
      match read_ifd ⟨c.data, ifd_ptr⟩ endianness with
      | .panic => .panic
      | .err er => .err er
      | .ok (es, c2) => extra_entries_loop endianness (acc ++ es) c2 rest
    | .GpsIfdPointer ifd_ptr =>
      match read_ifd ⟨c.data, ifd_ptr⟩ endianness with
      | .panic => .panic
      | .err er => .err er
      | .ok (es, c2) => extra_entries_loop endianness (acc ++ es) c2 rest
    | _ => extra_entries_loop endianness acc c rest

/-- `tiff::read_tiff`: byte-order detection, format magic 42, the IFD chain,
projection to semantic tags, then one extra directory decode per
`ExifIfdPointer`/`GpsIfdPointer` tag, appended to the same flat list. -/
def read_tiff (c : Cursor) : TOut TiffErrorKind Tiff :=
  match c.readExact 2 with
  | none => .panic
  | some (magic_bs, c1) =>
    let endiannessOut : TOut TiffErrorKind Endianness :=
      if magic_bs = [0x4D, 0x4D] then .ok .Big
      else if magic_bs = [0x49, 0x49] then .ok .Little
      else .err (.badMagic magic_bs)
    match endiannessOut with
    | .panic => .panic
    | .err er => .err er
    | .ok endianness =>
      match c1.readExact 2 with
      | none => .panic
      | some (num_bs, c2) =>
        let magic_number := unpack endianness num_bs
        if magic_number ≠ 42 then .err (.badMagicNumber magic_number)
        else
          match ifd_chain_loop endianness [] c2 (c2.data.length + 1) with
          | .panic => .panic
          | .err er => .err er
          | .ok (entries, c3) =>
            match ifd_entries_to_tiff_tags entries with
            | .panic => .panic
            | .err er => .err er
            | .ok tags =>
              match extra_entries_loop endianness [] c3 tags with
              | .panic => .panic
              | .err er => .err er
              | .ok (extra_found_entries, _) =>
                match ifd_entries_to_tiff_tags extra_found_entries with
                | .panic => .panic
                | .err er => .err er
                | .ok extra_tags => .ok ⟨tags ++ extra_tags, endianness⟩

/-- Modelled from the spec: `read_exif_section` is called by `get_exif`
(heif.rs) and `read_jpeg` (jpeg.rs) but its definition is not among the
provided sources (`tiff.rs` does not contain it).  Per spec §4.5 an Exif
payload "is decoded via the TIFF directory decoder (offset by the 6-byte
prefix)", the prefix being `"Exif\0\0"`; so the model runs `read_tiff` over
the payload with its first 6 bytes removed. -/
def read_exif_section (d : List Nat) : TOut TiffErrorKind Tiff :=
  read_tiff ⟨d.drop 6, 0⟩

/-!  ## JPEG marker scanner (`jpeg.rs`)  -/

/-- `jpeg::JpegMarker`. -/
inductive JpegMarker where
  | UNKNOWN (v : Nat)
  | SOF0
  | SOF1
  | SOF2
  | SOF3
  | DHT
  | RST0
  | RST1
  | RST2
  | RST3
  | APP0
  | APP1
  | APP2
  | SOS
  | DQT
  | DRI
  | COM
deriving DecidableEq

/-- `impl From<u8> for JpegMarker`. -/
def JpegMarker.fromByte (value : Nat) : JpegMarker :=
  match value with
  | 0xC0 => .SOF0
  | 0xC1 => .SOF1
  | 0xC2 => .SOF2
  | 0xC3 => .SOF3
  | 0xC4 => .DHT
  | 0xD0 => .RST0
  | 0xD1 => .RST1
  | 0xD2 => .RST2
  | 0xD3 => .RST3
  | 0xE0 => .APP0
  | 0xE1 => .APP1
  | 0xE2 => .APP2
  | 0xDA => .SOS
  | 0xDB => .DQT
  | 0xDD => .DRI
  | 0xFE => .COM
  | _ => .UNKNOWN value

/-- Bytes available at `pos` (`read_exact` over a slice cursor), shared by
the JPEG scanner model. -/
def read_exact_at (data : List Nat) (pos n : Nat) : Option (List Nat) :=
  if pos + n ≤ data.length then some ((data.drop pos).take n) else none

/-- The entropy-data loop that `jpeg::get_jpeg_sections` runs after a
start-of-scan header: a two-byte sliding window `buf` (initially `[0, 0]`)
shifts one byte per iteration (`prev` is the byte entering as `buf[0]`,
i.e. the previous iteration's read, initially 0).  The loop stops at end of
input (`read` returns 0), or when `buf[0] = 0xFF` and `buf[1]` is neither
`0x00` nor `0xFF` nor a restart marker `0xD0..0xD7` — in which case it seeks
back 2 bytes so the outer loop re-reads that marker; otherwise it appends
`buf[0]` to the section data and continues.  Fuel decreases once per byte
read; callers pass more fuel than there are bytes, so exhaustion (modelled
as an unchanged stop, the `.none`-free value is unreachable) never occurs.
-/
def sos_scan (data : List Nat) : Nat → Nat → Nat → List Nat → List Nat × Nat
  | 0, pos, _, acc => (acc, pos)
  | fuel + 1, pos, prev, acc =>
    match data.get? pos with
    | none => (acc, pos)
    | some b =>
      -- Skip forward till we find a marker which isn't 0xFF or a restart
      -- marker (0xD0-0xD7): the skipped set is {0x00, 0xFF} ∪ [0xD0, 0xD8)
      if prev = 255 ∧ b ≠ 0 ∧ b ≠ 255 ∧ ¬(208 ≤ b ∧ b < 216) then
        -- seek(-2): the marker byte pair [prev, b] is left for the next
        -- outer-loop read (prev = 255 was read at pos - 1, so pos ≥ 1 here
        -- whenever the state is reachable and the monus is exact)
        (acc, pos + 1 - 2)
      else
        sos_scan data fuel (pos + 1) b (acc ++ [prev])

/-- The marker-segment loop of `jpeg::get_jpeg_sections`.  Reads a 2-byte
marker (panicking — `panic!("Expected 0xFF but got …")` — when the lead byte
is not `0xFF`), a 2-byte big-endian length that includes itself (underflow
for lengths < 2 panics), the payload, and for `SOS` the trailing entropy
data via `sos_scan`. -/
def jpeg_sections_loop (data : List Nat) (acc : List (JpegMarker × List Nat)) (pos : Nat) :
    Nat → Option (List (JpegMarker × List Nat))
  | 0 => none
  | fuel + 1 =>
    if data.length - 2 ≤ pos then some acc
    else
      match read_exact_at data pos 2 with
      | none => none
      | some header =>
        match header with
        | [h0, h1] =>
          if h0 ≠ 255 then none  -- `panic!("Expected 0xFF but got {:#04x}", header[0])`
          else
            let marker := JpegMarker.fromByte h1
            match read_exact_at data (pos + 2) 2 with
            | none => none
            | some size_bs =>
              -- -2 because the size includes the size bytes
              let size0 := be_nat size_bs
              if size0 < 2 then none  -- `size - 2` underflows
              else
                let size := size0 - 2
                match read_exact_at data (pos + 4) size with
                | none => none
                | some section_data =>
                  if marker = JpegMarker.SOS then
                    let (sd, pos2) := sos_scan data (data.length + 1) (pos + 4 + size) 0 section_data
                    jpeg_sections_loop data (acc ++ [(marker, sd)]) pos2 fuel
                  else
                    jpeg_sections_loop data (acc ++ [(marker, section_data)]) (pos + 4 + size) fuel
        | _ => none

/-- `jpeg::get_jpeg_sections`: seek to offset 2 (past the start-of-image
marker) and scan segments while more than 2 bytes remain.  For inputs
shorter than 2 bytes `data_len - 2` underflows (debug panic; in release the
wrapped bound makes the marker read fail its `unwrap`), modelled as the
panic outcome. -/
def get_jpeg_sections (data : List Nat) : Option (List (JpegMarker × List Nat)) :=
  if data.length < 2 then none
  else jpeg_sections_loop data [] 2 (data.length + 1)

/-!  ## ISOBMFF/HEIF box tree decoder (`heif/atom.rs`, `heif/atoms/*.rs`)  -/

/-- `heif::atoms::AtomUnknown`. -/
structure AtomUnknown where
  name : List Nat
  data : List Nat
deriving DecidableEq

/-- `heif::atoms::AtomFtyp`. -/
structure AtomFtyp where
  major_brand : List Nat
  minor_version : Int
  compatible_brands : List (List Nat)
deriving DecidableEq

/-- `heif::atoms::AtomMetaHdlr`. -/
structure AtomMetaHdlr where
  version : Nat
  flags : Nat
  predefined : Nat
  handler_type : List Nat
  reserved : List Nat
  name : List Nat
deriving DecidableEq

/-- `heif::atoms::AtomMetaDinfDrefEntry`. -/
structure AtomMetaDinfDrefEntry where
  name : List Nat
  version : Nat
  flags : Nat
  string_value : List Nat
deriving DecidableEq

/-- `heif::atoms::AtomMetaDinfDref`. -/
structure AtomMetaDinfDref where
  version : Nat
  flags : Nat
  data_references : List AtomMetaDinfDrefEntry
deriving DecidableEq

/-- `heif::atoms::AtomMetaDinf`. -/
structure AtomMetaDinf where
  data_references : AtomMetaDinfDref
deriving DecidableEq

/-- `heif::atoms::AtomMetaPitm`. -/
structure AtomMetaPitm where
  version : Nat
  flags : Nat
  item_id : Nat
deriving DecidableEq

/-- `heif::atoms::AtomMetaIinfInfeVariant`. -/
inductive AtomMetaIinfInfeVariant where
  | V0Or1 (item_id : Nat) (item_protection_index : Nat) (item_name : List Nat)
      (content_type : List Nat) (content_encoding : Option (List Nat))
      (extension_type : Option Nat) (extensionData : Option (List Nat))
  | V2Or3 (item_id : Nat) (item_protection_index : Nat) (item_type : List Nat)
      (item_name : List Nat) (content_type : Option (List Nat))
      (content_encoding : Option (List Nat)) (item_uri_type : Option (List Nat))
  | Unknown (s : List Nat)
deriving DecidableEq

/-- Whether an infe value has the structured version-0/1 shape. -/
def AtomMetaIinfInfeVariant.isV0Or1 : AtomMetaIinfInfeVariant → Bool
  | .V0Or1 .. => true
  | _ => false

/-- `heif::atoms::AtomMetaIinfInfe`. -/
structure AtomMetaIinfInfe where
  version : Nat
  flags : Nat
  value : AtomMetaIinfInfeVariant
deriving DecidableEq

/-- `heif::atoms::AtomMetaIinf`. -/
structure AtomMetaIinf where
  version : Nat
  flags : Nat
  entries : List AtomMetaIinfInfe
deriving DecidableEq

/-- `heif::atoms::AtomMetaIrefReference`. -/
structure AtomMetaIrefReference where
  name : List Nat
  from_item_id : Nat
  references : List Nat
deriving DecidableEq

/-- `heif::atoms::AtomMetaIref`. -/
structure AtomMetaIref where
  version : Nat
  flags : Nat
  entries : List AtomMetaIrefReference
deriving DecidableEq

/-- `heif::atoms::AtomMetaIlocItemExtent`. -/
structure AtomMetaIlocItemExtent where
  extent_index : Option Nat
  extent_offset : Nat
  extent_length : Nat
deriving DecidableEq

/-- `heif::atoms::AtomMetaIlocItem`. -/
structure AtomMetaIlocItem where
  item_id : Nat
  reserved : Option Nat
  construction_method : Option Nat
  data_reference_index : Nat
  base_offset : Nat
  extents : List AtomMetaIlocItemExtent
deriving DecidableEq

/-- `heif::atoms::AtomMetaIloc`. -/
structure AtomMetaIloc where
  version : Nat
  flags : Nat
  items : List AtomMetaIlocItem
deriving DecidableEq

mutual

/-- `heif::atoms::AtomMeta` (as an inductive: its children are again
`AtomVariant`s). -/
inductive AtomMeta where
  | mk (version : Nat) (flags : Nat) (children : List AtomVariant)

/-- `heif::atom::AtomVariant`. -/
inductive AtomVariant where
  | Unknown (a : AtomUnknown)
  | Ftyp (a : AtomFtyp)
  | Meta (a : AtomMeta)
  | MetaHdlr (a : AtomMetaHdlr)
  | MetaDinf (a : AtomMetaDinf)
  | MetaDinfDref (a : AtomMetaDinfDref)
  | MetaDinfDrefEntry (a : AtomMetaDinfDrefEntry)
  | MetaPitm (a : AtomMetaPitm)
  | MetaIinf (a : AtomMetaIinf)
  | MetaIinfInfe (a : AtomMetaIinfInfe)
  | MetaIref (a : AtomMetaIref)
  | MetaIloc (a : AtomMetaIloc)

end

/-- Field accessor for `AtomMeta.version`. -/
def AtomMeta.version : AtomMeta → Nat
  | .mk v _ _ => v

/-- Field accessor for `AtomMeta.flags`. -/
def AtomMeta.flags : AtomMeta → Nat
  | .mk _ f _ => f

/-- Field accessor for `AtomMeta.children`. -/
def AtomMeta.children : AtomMeta → List AtomVariant
  | .mk _ _ c => c

/-- The data payload of an `Unknown` box, if the variant is one. -/
def AtomVariant.unknownData : AtomVariant → Option (List Nat)
  | .Unknown a => some a.data
  | _ => none

/-- `heif::atom::read_version_and_flags`: one `u8` version, then three `u8`s
packed big-endian into a 24-bit flags value. -/
def read_version_and_flags (c : Cursor) : Option (Nat × Nat × Cursor) :=
  match c.read_u8 with
  | none => none
  | some (version, c1) =>
  match c1.read_u8 with
  | none => none
  | some (f0, c2) =>
  match c2.read_u8 with
  | none => none
  | some (f1, c3) =>
  match c3.read_u8 with
  | none => none
  | some (f2, c4) =>
    some (version, (f0 <<< 16) ||| (f1 <<< 8) ||| f2, c4)

/-- `heif::atom::read_atom_header`: a 4-byte big-endian size and 4-byte name;
size 0 means "rest of the buffer" (the source computes `len - position`,
which cannot underflow since the reads just bounded `position`), size 1 means
the real size follows as a 64-bit big-endian integer. -/
def read_atom_header (c : Cursor) : Option ((List Nat × Nat) × Cursor) :=
  match c.read_u32be with
  | none => none
  | some (size0, c1) =>
  match c1.readExact 4 with
  | none => none
  | some (name, c2) =>
    -- Atom size of 0 means last atom in file
    if size0 = 0 then some ((name, c2.data.length - c2.pos), c2)
    else if size0 = 1 then
      match c2.read_u64be with
      | none => none
      | some (size64, c3) => some ((name, size64), c3)
    else some ((name, size0), c2)

/-- `heif::atoms::AtomUnknown::read_from`: allocates a `size - 8` byte buffer
(underflow for `size < 8` is the panic outcome), fills it with `read` — which
reads at most the bytes remaining and cannot fail — and then discards it: the
constructed atom carries an empty data vector (`AtomUnknown { name, data:
vec![] }`). -/
def AtomUnknown.read_from (name : List Nat) (size : Nat) (c : Cursor) :
    Option (AtomUnknown × Cursor) :=
  if size < 8 then none
  else some (⟨name, []⟩, ⟨c.data, c.pos + min (size - 8) (c.data.length - c.pos)⟩)

/-- The `(0..(size / 4) - 4)` brand loop of `AtomFtyp::read_from`. -/
def ftyp_brands_loop (n : Nat) (c : Cursor) : Option (List (List Nat) × Cursor) :=
  match n with
  | 0 => some ([], c)
  | m + 1 =>
    match c.readExact 4 with
    | none => none
    | some (brand, c2) =>
      match ftyp_brands_loop m c2 with
      | none => none
      | some (brands, c3) => some (brand :: brands, c3)

/-- `heif::atoms::AtomFtyp::read_from`: 4-byte major brand, `i32` big-endian
minor version, then `(size / 4) - 4` compatible brands (underflow for
`size / 4 < 4` is the panic outcome). -/
def AtomFtyp.read_from (_name : List Nat) (size : Nat) (c : Cursor) :
    Option (AtomFtyp × Cursor) :=
  match c.readExact 4 with
  | none => none
  | some (major_brand, c1) =>
  match c1.read_u32be with
  | none => none
  | some (minor_raw, c2) =>
    if size / 4 < 4 then none
    else
      match ftyp_brands_loop (size / 4 - 4) c2 with
      | none => none
      | some (compatible_brands, c3) =>
        some (⟨major_brand, to_signed 32 minor_raw, compatible_brands⟩, c3)

/-- `heif::atoms::AtomMetaHdlr::read_from`: version/flags, a `u32`, a 4-byte
handler type, three reserved `u32`s, and a NUL-padded name filling the
remaining `size - 32` bytes (underflow for `size < 32` is the panic
outcome). -/
def AtomMetaHdlr.read_from (_name : List Nat) (size : Nat) (c : Cursor) :
    Option (AtomMetaHdlr × Cursor) :=
  match read_version_and_flags c with
  | none => none
  | some (version, flags, c1) =>
  match c1.read_u32be with
  | none => none
  | some (predefined, c2) =>
  match read_sized_string c2 4 with
  | none => none
  | some (handler_type, c3) =>
  match c3.read_u32be with
  | none => none
  | some (r0, c4) =>
  match c4.read_u32be with
  | none => none
  | some (r1, c5) =>
  match c5.read_u32be with
  | none => none
  | some (r2, c6) =>
    if size < 32 then none
    else
      match read_sized_string c6 (size - 32) with
      | none => none
      | some (nm, c7) => some (⟨version, flags, predefined, handler_type, [r0, r1, r2], nm⟩, c7)

/-- `heif::atoms::AtomMetaDinfDrefEntry::read_from`: version/flags and a
NUL-padded string filling the remaining `size - 12` bytes (underflow for
`size < 12` is the panic outcome). -/
def AtomMetaDinfDrefEntry.read_from (name : List Nat) (size : Nat) (c : Cursor) :
    Option (AtomMetaDinfDrefEntry × Cursor) :=
  match read_version_and_flags c with
  | none => none
  | some (version, flags, c1) =>
    if size < 12 then none
    else
      match read_sized_string c1 (size - 12) with
      | none => none
      | some (string_value, c2) => some (⟨name, version, flags, string_value⟩, c2)

/-- `heif::atoms::AtomMetaPitm::read_from`: version/flags, then a `u16` item
ID for version 0 and a `u32` otherwise. -/
def AtomMetaPitm.read_from (_name : List Nat) (_size : Nat) (c : Cursor) :
    Option (AtomMetaPitm × Cursor) :=
  match read_version_and_flags c with
  | none => none
  | some (version, flags, c1) =>
    match (if version = 0 then c1.read_u16be else c1.read_u32be) with
    | none => none
    | some (item_id, c2) => some (⟨version, flags, item_id⟩, c2)

/-- The version-2/3 body of `AtomMetaIinfInfe::read_from`: 16-bit (v2) or
32-bit (v3) item ID, 16-bit protection index, 4-character item type,
NUL-terminated item name; then, for item type `mime`, a NUL-terminated
content type followed by a content encoding read only when
`cursor.position() - atom_start >= size` — the source's own comment says "If
we're at the end of the atom, this string doesn't exist", but the test is
inverted, so for any well-formed box (where the bytes consumed since the
version field stay below `size`) the content encoding is never read; for
item type `uri ` a NUL-terminated URI type. -/
def infe_v23_body (version atom_start size : Nat) (c : Cursor) :
    Option (AtomMetaIinfInfeVariant × Cursor) :=
  match (if version = 2 then c.read_u16be
         else if version = 3 then c.read_u32be
         else none) with  -- the source's inner match panics on other versions (unreachable)
  | none => none
  | some (item_id, c1) =>
  match c1.read_u16be with
  | none => none
  | some (item_protection_index, c2) =>
  match read_sized_string c2 4 with
  | none => none
  | some (item_type, c3) =>
  let (item_name, c4) := read_c_string c3
  if item_type = str_bytes "mime" then
    let (content_type, c5) := read_c_string c4
    -- "If we're at the end of the atom, this string doesn't exist"
    if size ≤ c5.pos - atom_start then
      let (content_encoding, c6) := read_c_string c5
      some (.V2Or3 item_id item_protection_index item_type item_name
        (some content_type) (some content_encoding) none, c6)
    else
      some (.V2Or3 item_id item_protection_index item_type item_name
        (some content_type) none none, c5)
  else if item_type = str_bytes "uri " then
    let (item_uri_type, c5) := read_c_string c4
    some (.V2Or3 item_id item_protection_index item_type item_name
      none none (some item_uri_type), c5)
  else
    some (.V2Or3 item_id item_protection_index item_type item_name none none none, c4)

/-- `heif::atoms::AtomMetaIinfInfe::read_from`: `atom_start` is the position
right after the 8-byte box header; versions 2 and 3 get the structured body,
any other version (the source's `TODO: Properly handle V0 & V1` fallback,
which `V0Or1` never escapes) reads the next `size - 8` bytes as an opaque
string (underflow for `size < 8` is the panic outcome). -/
def AtomMetaIinfInfe.read_from (_name : List Nat) (size : Nat) (c : Cursor) :
    Option (AtomMetaIinfInfe × Cursor) :=
  let atom_start := c.pos
  match read_version_and_flags c with
  | none => none
  | some (version, flags, c1) =>
    if version = 2 ∨ version = 3 then
      match infe_v23_body version atom_start size c1 with
      | none => none
      | some (value, c2) => some (⟨version, flags, value⟩, c2)
    else
      if size < 8 then none
      else
        match c1.readExact (size - 8) with
        | none => none
        | some (data, c2) => some (⟨version, flags, .Unknown data⟩, c2)

/-- The `(0..reference_count)` "to" item-ID loop of `AtomMetaIref::read_from`:
`u16` IDs for version 0, `u32` for version 1 (any other version panics). -/
def iref_references_loop (version : Nat) (n : Nat) (c : Cursor) :
    Option (List Nat × Cursor) :=
  match n with
  | 0 => some ([], c)
  | m + 1 =>
    match (if version = 0 then c.read_u16be
           else if version = 1 then c.read_u32be
           else none) with  -- `panic!("Impossible value for AtomMetaIref version ...")`
    | none => none
    | some (r, c2) =>
      match iref_references_loop version m c2 with
      | none => none
      | some (rs, c3) => some (r :: rs, c3)

/-- The `while cursor.position() - start_position < size - 12` loop of
`AtomMetaIref::read_from`: per reference, a sub-box header (whose name is the
reference type), a "from" item ID, a `u16` reference count and that many "to"
IDs.  Each iteration consumes at least a header, so the ample fuel passed by
the caller cannot run out. -/
def iref_entries_loop (version start_position target : Nat) (acc : List AtomMetaIrefReference)
    (c : Cursor) : Nat → Option (List AtomMetaIrefReference × Cursor)
  | 0 => none
  | fuel + 1 =>
    if c.pos - start_position < target then
      match read_atom_header c with
      | none => none
      | some ((sub_name, _), c1) =>
        match (if version = 0 then c1.read_u16be
               else if version = 1 then c1.read_u32be
               else none) with  -- `panic!("Impossible value for AtomMetaIref version ...")`
        | none => none
        | some (from_item_id, c2) =>
          match c2.read_u16be with
          | none => none
          | some (reference_count, c3) =>
            match iref_references_loop version reference_count c3 with
            | none => none
            | some (references, c4) =>
              iref_entries_loop version start_position target
                (acc ++ [⟨sub_name, from_item_id, references⟩]) c4 fuel
    else some (acc, c)

/-- `heif::atoms::AtomMetaIref::read_from` (underflow of `size - 4 * 3` for
`size < 12` is the panic outcome). -/
def AtomMetaIref.read_from (_name : List Nat) (size : Nat) (c : Cursor) :
    Option (AtomMetaIref × Cursor) :=
  match read_version_and_flags c with
  | none => none
  | some (version, flags, c1) =>
    if size < 12 then none
    else
      match iref_entries_loop version c1.pos (size - 12) [] c1 (size + 1) with
      | none => none
      | some (entries, c2) => some (⟨version, flags, entries⟩, c2)

/-- A nibble-coded iloc field read: width 0 consumes nothing and yields 0,
width 4 a big-endian `u32`, width 8 a big-endian `u64`; any other width
panics (`"Impossible value for AtomMetaIloc... encountered"`). -/
def iloc_sized_read (width : Nat) (c : Cursor) : Option (Nat × Cursor) :=
  match width with
  | 0 => some (0, c)
  | 4 => c.read_u32be
  | 8 => c.read_u64be
  | _ => none

/-- The `(0..extent_count)` loop of `AtomMetaIloc::read_from`: an optional
extent index (versions 1/2 only, width `index_size`), an extent offset and
an extent length. -/
def iloc_extents_loop (version offset_size length_size index_size : Nat) (n : Nat)
    (c : Cursor) : Option (List AtomMetaIlocItemExtent × Cursor) :=
  match n with
  | 0 => some ([], c)
  | m + 1 =>
    match (if version = 1 ∨ version = 2 then
             match iloc_sized_read index_size c with
             | none => none
             | some (idx, c1) => some (some idx, c1)
           else some (none, c)) with
    | none => none
    | some (extent_index, c1) =>
      match iloc_sized_read offset_size c1 with
      | none => none
      | some (extent_offset, c2) =>
        match iloc_sized_read length_size c2 with
        | none => none
        | some (extent_length, c3) =>
          match iloc_extents_loop version offset_size length_size index_size m c3 with
          | none => none
          | some (exts, c4) => some (⟨extent_index, extent_offset, extent_length⟩ :: exts, c4)

/-- The `(0..item_count)` loop of `AtomMetaIloc::read_from`: item ID (`u16`
for versions 0/1, `u32` for version 2), for versions 1/2 a `u16` packing a
reserved field (`& 0xFFF`) and construction method (`& 0b1111`), a `u16`
data-reference index, a base offset of width `base_offset_size`, a `u16`
extent count and the extents. -/
def iloc_items_loop (version offset_size length_size base_offset_size index_size : Nat)
    (n : Nat) (c : Cursor) : Option (List AtomMetaIlocItem × Cursor) :=
  match n with
  | 0 => some ([], c)
  | m + 1 =>
    match (if version = 0 ∨ version = 1 then c.read_u16be
           else if version = 2 then c.read_u32be
           else none) with  -- `panic!("Impossible value for AtomMetaIloc version ...")`
    | none => none
    | some (item_id, c1) =>
      match (if version = 1 ∨ version = 2 then
               match c1.read_u16be with
               | none => none
               | some (rcm, c2) => some ((some (rcm &&& 0xFFF), some (rcm &&& 0b1111)), c2)
             else some ((none, none), c1)) with
      | none => none
      | some ((reserved, construction_method), c2) =>
        match c2.read_u16be with
        | none => none
        | some (data_reference_index, c3) =>
          match iloc_sized_read base_offset_size c3 with
          | none => none
          | some (base_offset, c4) =>
            match c4.read_u16be with
            | none => none
            | some (extent_count, c5) =>
              match iloc_extents_loop version offset_size length_size index_size
                  extent_count c5 with
              | none => none
              | some (extents, c6) =>
                match iloc_items_loop version offset_size length_size base_offset_size
                    index_size m c6 with
                | none => none
                | some (items, c7) =>
                  some (⟨item_id, reserved, construction_method, data_reference_index,
                    base_offset, extents⟩ :: items, c7)

/-- `heif::atoms::AtomMetaIloc::read_from`: version/flags, one byte packing
`(offset_size, length_size)` as nibbles and one packing `(base_offset_size,
index_size_or_reserved)` — `get_nibbles` puts the LOW nibble first — then a
`u16` (versions 0/1) or `u32` (version 2) item count and the items. -/
def AtomMetaIloc.read_from (_name : List Nat) (_size : Nat) (c : Cursor) :
    Option (AtomMetaIloc × Cursor) :=
  match read_version_and_flags c with
  | none => none
  | some (version, flags, c1) =>
  match c1.read_u8 with
  | none => none
  | some (b0, c2) =>
  let (offset_size, length_size) := get_nibbles b0
  match c2.read_u8 with
  | none => none
  | some (b1, c3) =>
  let (base_offset_size, index_size_or_reserved) := get_nibbles b1
  match (if version = 0 ∨ version = 1 then c3.read_u16be
         else if version = 2 then c3.read_u32be
         else none) with  -- `panic!("Impossible value for AtomMetaIloc version ...")`
  | none => none
  | some (item_count, c4) =>
    match iloc_items_loop version offset_size length_size base_offset_size
        index_size_or_reserved item_count c4 with
    | none => none
    | some (items, c5) => some (⟨version, flags, items⟩, c5)

mutual

/-- `heif::atom::read_sub_atom`: read a box header and dispatch on
`parent ++ "." ++ name` (the source's `format!("{}.{}", parent, name)`
compared against string literals; `46` is the byte of `.`).  Everything not
in the table becomes an `Unknown` box.  The fuel decreases on every mutual
call; callers pass ample fuel. -/
def read_sub_atom (parent : List Nat) (c : Cursor) (fuel : Nat) : Option (AtomVariant × Cursor) :=
  match fuel with
  | 0 => none
  | fuel + 1 =>
    match read_atom_header c with
    | none => none
    | some ((name, size), c1) =>
      let path := parent ++ [46] ++ name
      if path = str_bytes "meta.hdlr" then
        match AtomMetaHdlr.read_from name size c1 with
        | none => none
        | some (a, c2) => some (.MetaHdlr a, c2)
      else if path = str_bytes "meta.dinf" then
        match AtomMetaDinf.read_from name size c1 fuel with
        | none => none
        | some (a, c2) => some (.MetaDinf a, c2)
      else if path = str_bytes "meta.dinf.dref" then
        match AtomMetaDinfDref.read_from name size c1 fuel with
        | none => none
        | some (a, c2) => some (.MetaDinfDref a, c2)
      else if path = str_bytes "meta.dinf.dref.alis" ∨ path = str_bytes "meta.dinf.dref.rsrc"
          ∨ path = str_bytes "meta.dinf.dref.url " then
        match AtomMetaDinfDrefEntry.read_from name size c1 with
        | none => none
        | some (a, c2) => some (.MetaDinfDrefEntry a, c2)
      else if path = str_bytes "meta.pitm" then
        match AtomMetaPitm.read_from name size c1 with
        | none => none
        | some (a, c2) => some (.MetaPitm a, c2)
      else if path = str_bytes "meta.iinf" then
        match AtomMetaIinf.read_from name size c1 fuel with
        | none => none
        | some (a, c2) => some (.MetaIinf a, c2)
      else if path = str_bytes "meta.iinf.infe" then
        match AtomMetaIinfInfe.read_from name size c1 with
        | none => none
        | some (a, c2) => some (.MetaIinfInfe a, c2)
      else if path = str_bytes "meta.iref" then
        match AtomMetaIref.read_from name size c1 with
        | none => none
        | some (a, c2) => some (.MetaIref a, c2)
      else if path = str_bytes "meta.iloc" then
        match AtomMetaIloc.read_from name size c1 with
        | none => none
        | some (a, c2) => some (.MetaIloc a, c2)
      else
        match AtomUnknown.read_from name size c1 with
        | none => none
        | some (a, c2) => some (.Unknown a, c2)
termination_by structural fuel
/-- The `while cursor.position() - start_position < size - 4 * 3` child loop
of `AtomMeta::read_from`. -/
def meta_children_loop (start_position target : Nat) (acc : List AtomVariant) (c : Cursor)
    (fuel : Nat) : Option (List AtomVariant × Cursor) :=
  match fuel with
  | 0 => none
  | fuel + 1 =>
    if c.pos - start_position < target then
      match read_sub_atom (str_bytes "meta") c fuel with
      | none => none
      | some (a, c2) => meta_children_loop start_position target (acc ++ [a]) c2 fuel
    else some (acc, c)
termination_by structural fuel
/-- `heif::atoms::AtomMeta::read_from`: version/flags, then children until
`size - 12` payload bytes are consumed (underflow for `size < 12` is the
panic outcome). -/
def AtomMeta.read_from (_name : List Nat) (size : Nat) (c : Cursor) (fuel : Nat) :
    Option (AtomMeta × Cursor) :=
  match fuel with
  | 0 => none
  | fuel + 1 =>
    match read_version_and_flags c with
    | none => none
    | some (version, flags, c1) =>
      if size < 12 then none
      else
        match meta_children_loop c1.pos (size - 12) [] c1 fuel with
        | none => none
        | some (children, c2) => some (.mk version flags children, c2)
/-- `heif::atoms::AtomMetaDinf::read_from`: one sub-box that must be a
`dref` (the source `unwrap`s `get_atom_value!`, so any other variant is the
panic outcome). -/
def AtomMetaDinf.read_from (_name : List Nat) (_size : Nat) (c : Cursor) (fuel : Nat) :
    Option (AtomMetaDinf × Cursor) :=
  match fuel with
  | 0 => none
  | fuel + 1 =>
    match read_sub_atom (str_bytes "meta.dinf") c fuel with
    | none => none
    | some (sub, c2) =>
      match sub with
      | .MetaDinfDref data_references => some (⟨data_references⟩, c2)
      | _ => none
termination_by structural fuel
/-- The `(0..number_of_entries)` loop of `AtomMetaDinfDref::read_from`: each
sub-box must decode as a dref entry (`alis`/`rsrc`/`url `); anything else is
the source's `panic!("Encountered atom of unexpected type ...")`. -/
def dref_entries_loop (n : Nat) (acc : List AtomMetaDinfDrefEntry) (c : Cursor)
    (fuel : Nat) : Option (List AtomMetaDinfDrefEntry × Cursor) :=
  match fuel with
  | 0 => none
  | fuel + 1 =>
    match n with
    | 0 => some (acc, c)
    | m + 1 =>
      match read_sub_atom (str_bytes "meta.dinf.dref") c fuel with
      | none => none
      | some (sub, c2) =>
        match sub with
        | .MetaDinfDrefEntry entry => dref_entries_loop m (acc ++ [entry]) c2 fuel
        | _ => none
termination_by structural fuel
/-- `heif::atoms::AtomMetaDinfDref::read_from`: version/flags, a `u32` entry
count and that many entries. -/
def AtomMetaDinfDref.read_from (_name : List Nat) (_size : Nat) (c : Cursor) (fuel : Nat) :
    Option (AtomMetaDinfDref × Cursor) :=
  match fuel with
  | 0 => none
  | fuel + 1 =>
    match read_version_and_flags c with
    | none => none
    | some (version, flags, c1) =>
      match c1.read_u32be with
      | none => none
      | some (number_of_entries, c2) =>
        match dref_entries_loop number_of_entries [] c2 fuel with
        | none => none
        | some (entries, c3) => some (⟨version, flags, entries⟩, c3)
termination_by structural fuel
/-- The `(0..number_of_entries)` loop of `AtomMetaIinf::read_from`: each
sub-box must decode as an `infe`; anything else is the source's
`panic!("Encountered atom of unexpected type (expected infe) ...")`. -/
def iinf_entries_loop (n : Nat) (acc : List AtomMetaIinfInfe) (c : Cursor)
    (fuel : Nat) : Option (List AtomMetaIinfInfe × Cursor) :=
  match fuel with
  | 0 => none
  | fuel + 1 =>
    match n with
    | 0 => some (acc, c)
    | m + 1 =>
      match read_sub_atom (str_bytes "meta.iinf") c fuel with
      | none => none
      | some (sub, c2) =>
        match sub with
        | .MetaIinfInfe value => iinf_entries_loop m (acc ++ [value]) c2 fuel
        | _ => none
termination_by structural fuel
/-- `heif::atoms::AtomMetaIinf::read_from`: version/flags, a `u16` (version
0) or `u32` (otherwise) entry count and that many `infe` entries. -/
def AtomMetaIinf.read_from (_name : List Nat) (_size : Nat) (c : Cursor) (fuel : Nat) :
    Option (AtomMetaIinf × Cursor) :=
  match fuel with
  | 0 => none
  | fuel + 1 =>
    match read_version_and_flags c with
    | none => none
    | some (version, flags, c1) =>
      match (if version = 0 then c1.read_u16be else c1.read_u32be) with
      | none => none
      | some (number_of_entries, c2) =>
        match iinf_entries_loop number_of_entries [] c2 fuel with
        | none => none
        | some (entries, c3) => some (⟨version, flags, entries⟩, c3)
termination_by structural fuel

end

/-- `heif::atom::read_top_atom`: read a header and dispatch on the bare box
name: `ftyp`, `meta`, otherwise `Unknown`. -/
def read_top_atom (c : Cursor) (fuel : Nat) : Option (AtomVariant × Cursor) :=
  match read_atom_header c with
  | none => none
  | some ((name, size), c1) =>
    if name = str_bytes "ftyp" then
      match AtomFtyp.read_from name size c1 with
      | none => none
      | some (a, c2) => some (.Ftyp a, c2)
    else if name = str_bytes "meta" then
      match AtomMeta.read_from name size c1 fuel with
      | none => none
      | some (a, c2) => some (.Meta a, c2)
    else
      match AtomUnknown.read_from name size c1 with
      | none => none
      | some (a, c2) => some (.Unknown a, c2)

/-!  ## HEIF container decode and item resolver (`heif/heif.rs`)  -/

/-- `heif::Heif`. -/
structure Heif where
  atoms : List AtomVariant
  exif : Option Tiff
  xmp : Option (List Nat)

/-- `heif::get_iloc_item_for_item_type`: find the first `meta` box, its first
`iinf` and `iloc` children, the first version-2/3 `infe` entry whose item
type matches, then the `iloc` item with that item ID.  Every `?` absence is
genuine `Option` absence, not a panic. -/
def get_iloc_item_for_item_type (atoms : List AtomVariant) (item_type : List Nat) :
    Option AtomMetaIlocItem :=
  match atoms.findSome? (fun a => match a with | .Meta m => some m | _ => none) with
  | none => none
  | some meta =>
  match meta.children.findSome? (fun a => match a with | .MetaIinf v => some v | _ => none) with
  | none => none
  | some iinf =>
  match meta.children.findSome? (fun a => match a with | .MetaIloc v => some v | _ => none) with
  | none => none
  | some iloc =>
  match iinf.entries.findSome? (fun item =>
      match item.value with
      | .V2Or3 id _ it _ _ _ _ => if it = item_type then some id else none
      | _ => none) with
  | none => none
  | some exif_item_id =>
    iloc.items.find? (fun item => item.item_id == exif_item_id)

/-- `heif::get_exif`.  A missing item yields `some none` (absence); a present
item is sliced from the buffer at `extents[0]` (panic when there is no
extent, when `length - 4` underflows, or when the read runs past the end),
its first 4 bytes — the HEIF Exif wrapper's length prefix — are skipped, and
a `read_exif_section` failure is swallowed into `some none` (`Err(_) =>
None`), never surfaced. -/
def get_exif (atoms : List AtomVariant) (c : Cursor) : Option (Option Tiff) :=
  match get_iloc_item_for_item_type atoms (str_bytes "Exif") with
  | none => some none
  | some exif_iloc_item =>
    match exif_iloc_item.extents.get? 0 with
    | none => none  -- `extents[0]` on an itemless extent list panics
    | some ext =>
      let start := ext.extent_offset
      let length := ext.extent_length
      if length < 4 then none  -- `vec![0; length - 4]` underflows
      else if start + 4 + (length - 4) ≤ c.data.length then
        let data := (c.data.drop (start + 4)).take (length - 4)
        match read_exif_section data with
        | .ok t => some (some t)
        | .err _ => some none
        | .panic => none
      else none  -- `read_exact` past the end of the buffer panics

/-- `heif::get_xmp`: like `get_exif` but for the first `mime` item, reading
the whole extent as text, with no decode step that could fail. -/
def get_xmp (atoms : List AtomVariant) (c : Cursor) : Option (Option (List Nat)) :=
  match get_iloc_item_for_item_type atoms (str_bytes "mime") with
  | none => some none
  | some item =>
    match item.extents.get? 0 with
    | none => none
    | some ext =>
      let start := ext.extent_offset
      let length := ext.extent_length
      if start + length ≤ c.data.length then
        some (some ((c.data.drop start).take length))
      else none

/-- The `while cursor.position() < file_size` top-level box loop of
`heif::read_heif`. -/
def top_atoms_loop (acc : List AtomVariant) (c : Cursor) :
    Nat → Option (List AtomVariant × Cursor)
  | 0 => none
  | fuel + 1 =>
    if c.pos < c.data.length then
      match read_top_atom c fuel with
      | none => none
      | some (a, c2) => top_atoms_loop (acc ++ [a]) c2 fuel
    else some (acc, c)

/-- `heif::read_heif`: decode all top-level boxes, then resolve the Exif and
XMP items.  The function returns a plain `Heif` — it has no error channel;
the only non-`Heif` outcome is a panic. -/
def read_heif (data : List Nat) : Option Heif :=
  match top_atoms_loop [] ⟨data, 0⟩ (data.length + 100) with
  | none => none
  | some (atoms, c) =>
    match get_exif atoms c with
    | none => none
    | some exif =>
      match get_xmp atoms c with
      | none => none
      | some xmp => some ⟨atoms, exif, xmp⟩

/-!  ## Concrete decode fixtures used by the claim theorems  -/

/-- A 97-byte HEIF file: a `meta` box (version/flags 0) containing an `iinf`
with one version-2 `infe` entry of item type `Exif` (item ID 1) and an
`iloc` (offset/length widths 4, base-offset width 0) locating item 1 at
offset 85, length 12; then an `mdat` box whose payload is the Exif item: a
4-byte length prefix, the `"Exif\0\0"` prefix, and the two bytes `"AB"` —
which are not a valid TIFF byte-order mark, so TIFF decoding of the item
fails. -/
def c1bytes : List Nat :=
  [0,0,0,77, 109,101,116,97, 0,0,0,0,
   0,0,0,35, 105,105,110,102, 0,0,0,0, 0,1,
   0,0,0,21, 105,110,102,101, 2,0,0,0, 0,1, 0,0, 69,120,105,102, 0,
   0,0,0,30, 105,108,111,99, 0,0,0,0, 68, 0, 0,1, 0,1, 0,0, 0,1, 0,0,0,85, 0,0,0,12,
   0,0,0,20, 109,100,97,116, 0,0,0,6, 69,120,105,102,0,0, 65,66]

/-- The decoded box list of `c1bytes` (what `read_heif` produces for it),
written out for use as a concrete `get_exif` input. -/
def c1atoms : List AtomVariant :=
  [.Meta (.mk 0 0
    [.MetaIinf ⟨0, 0, [⟨2, 0, .V2Or3 1 0 (str_bytes "Exif") [] none none none⟩]⟩,
     .MetaIloc ⟨0, 0, [⟨1, none, none, 0, 0, [⟨none, 85, 12⟩]⟩]⟩]),
   .Unknown ⟨str_bytes "mdat", []⟩]

/-- A version-2 `infe` box body (after the 8-byte header) of declared size
26: item ID 1, protection index 0, item type `mime`, empty item name,
content type `"a"`, and — still inside the declared box boundary — the
NUL-terminated content encoding `"gz"`. -/
def c3bytes : List Nat := [2,0,0,0, 0,1, 0,0, 109,105,109,101, 0, 97,0, 103,122,0]

/-- A version-0 `infe` box body (after the 8-byte header) of declared size
20 laid out in the structured version-0 shape — item ID 1, protection index
2, item name `"a"`, content type `"t"` — followed by four trailing bytes
(the fallback reads `size - 8` bytes after the version field, running past
the box's own payload). -/
def c4bytes : List Nat := [0,0,0,0, 0,1, 0,2, 97,0, 116,0, 9,9,9,9]

/-- A single little-endian 12-byte IFD entry: tag 1, value type 1 (BYTE),
count 1, inline value 7. -/
def c5bytes : List Nat := [1,0, 1,0, 1,0,0,0, 7,0,0,0]

/-- A top-level box named `"abcd"` of declared size 12 whose 4-byte payload
is `[1, 2, 3, 4]`. -/
def c9bytes : List Nat := [0,0,0,12, 97,98,99,100, 1,2,3,4]

/-!  ## Claim theorems  -/

/-- Helper: a successful `readExact` leaves the buffer unchanged and
advances the position by exactly `n`. -/
theorem readExact_pos {c : Cursor} {n : Nat} {bs : List Nat} {c2 : Cursor}
    (h : c.readExact n = some (bs, c2)) : c2 = ⟨c.data, c.pos + n⟩ := by
  unfold Cursor.readExact at h
  split at h
  · exact ((Prod.mk.injEq _ _ _ _).mp ((Option.some.injEq _ _).mp h)).2.symm
  · cases h

/-- Claim C1 (amended): in the HEIF container decode, a missing Exif item
yields an absent Exif result (`some none`, no error), and an Exif item that
is present but fails TIFF decoding ALSO yields an absent Exif result: the
`Err(_) => None` arm of `get_exif` swallows the failure, and `read_heif`
(whose `exif` field is `get_exif`'s result) has no failure channel at all —
contrary to the claim, the failure is never surfaced to its caller. -/
theorem heif_exif_absence_and_swallowed_failure (atoms : List AtomVariant) (c : Cursor) :
    (get_iloc_item_for_item_type atoms (str_bytes "Exif") = none →
      get_exif atoms c = some none) ∧
    (∀ (item : AtomMetaIlocItem) (ext : AtomMetaIlocItemExtent) (er : TiffErrorKind),
      get_iloc_item_for_item_type atoms (str_bytes "Exif") = some item →
      item.extents.get? 0 = some ext →
      4 ≤ ext.extent_length →
      ext.extent_offset + 4 + (ext.extent_length - 4) ≤ c.data.length →
      read_exif_section ((c.data.drop (ext.extent_offset + 4)).take (ext.extent_length - 4)) =
        .err er →
      get_exif atoms c = some none) := by
  constructor
  · intro hnone
    unfold get_exif
    simp only [hnone]
  · intro item ext er hsome hext hlen hbound herr
    unfold get_exif
    simp only [hsome, hext]
    rw [if_neg (by omega), if_pos hbound, herr]

/-- Witness for C1: both branches of the amended claim at concrete inputs —
an atom list with no Exif item, and the decoded `c1bytes` box list whose
Exif item is present but undecodable. -/
theorem heif_exif_absence_and_swallowed_failure_witness :
    get_exif [] ⟨[], 0⟩ = some none ∧ get_exif c1atoms ⟨c1bytes, 97⟩ = some none :=
  ⟨(heif_exif_absence_and_swallowed_failure [] ⟨[], 0⟩).1 rfl,
   (heif_exif_absence_and_swallowed_failure c1atoms ⟨c1bytes, 97⟩).2
     ⟨1, none, none, 0, 0, [⟨none, 85, 12⟩]⟩ ⟨none, 85, 12⟩ (.badMagic [65, 66])
     rfl rfl (by decide) (by decide) rfl⟩

set_option maxHeartbeats 4000000 in
/-- Counterexample for C1 as stated: decoding the complete file `c1bytes`
with `read_heif` returns normally (no failure of any kind — the `map`ped
projection is `some`, i.e. not even a panic) with `exif = none`, even though
the Exif item IS present in the decoded box list and `read_exif_section` on
its extent payload fails with a structured error.  The present-but-
undecodable Exif item is treated as absent, not surfaced as a failure. -/
theorem heif_exif_failure_not_surfaced_counterexample :
    (read_heif c1bytes).map
      (fun h => (h.exif, (get_iloc_item_for_item_type h.atoms (str_bytes "Exif")).isSome)) =
      some (none, true) ∧
    read_exif_section ((c1bytes.drop (85 + 4)).take (12 - 4)) = .err (.badMagic [65, 66]) :=
  ⟨rfl, rfl⟩

/-- Claim C2 (code bug): for a TIFF IFD entry of value type 9 (SLONG), the
decoder produces the big-endian interpretation of the 4 value bytes under
BOTH declared byte orders: the `Endianness::Little` arm of the type-9 case
calls `i32::from_be_bytes`.  Decoding the bytes `01 00 00 00` under a
little-endian (`"II"`) header yields 16777216 (the big-endian value) instead
of 1. -/
theorem slong_little_endian_uses_big_endian_bug :
    read_ifd_entry_values 9 4 1 .Little ⟨[1, 0, 0, 0], 0⟩ =
      .ok ([.SLONG 16777216], ⟨[1, 0, 0, 0], 4⟩) ∧
    read_ifd_entry_values 9 4 1 .Big ⟨[1, 0, 0, 0], 0⟩ =
      .ok ([.SLONG 16777216], ⟨[1, 0, 0, 0], 4⟩) :=
  ⟨rfl, rfl⟩

/-- Claim C3 (code bug): a version-2 `infe` entry of item type `mime`
(declared size 26, body `c3bytes`) still has bytes remaining before the box
boundary after its content type — the NUL-terminated `"gz"` at offsets
15..17, with the payload ending at offset 18 = 26 - 8 — yet the decoder
leaves `content_encoding = none` and the cursor at 15: its condition reads
the content encoding only when `position - atom_start ≥ size`, the inverse
of the "bytes remain" rule its own comment describes. -/
theorem infe_mime_content_encoding_never_read_bug :
    AtomMetaIinfInfe.read_from [] 26 ⟨c3bytes, 0⟩ =
      some (⟨2, 0, .V2Or3 1 0 (str_bytes "mime") [] (some [97]) none none⟩,
        ⟨c3bytes, 15⟩) :=
  rfl

/-- Claim C4 (amended): an `infe` entry whose version is not 2 or 3 — in
particular versions 0 and 1 — decodes through the opaque-string fallback,
never through the structured `V0Or1` shape. -/
theorem infe_non_v23_decodes_opaque_fallback (name : List Nat) (size : Nat) (c : Cursor)
    (out : AtomMetaIinfInfe × Cursor)
    (h : AtomMetaIinfInfe.read_from name size c = some out)
    (h2 : out.1.version ≠ 2) (h3 : out.1.version ≠ 3) :
    ∃ s, out.1.value = .Unknown s := by
  unfold AtomMetaIinfInfe.read_from at h
  rcases hvf : read_version_and_flags c with _ | ⟨version, flags, c1⟩
  · rw [hvf] at h; cases h
  simp only [hvf] at h
  split at h
  · split at h
    · cases h
    · injection h with h5
      subst h5
      simp_all
  · split at h
    · cases h
    · split at h
      · cases h
      · injection h with h5
        subst h5
        exact ⟨_, rfl⟩

/-- Witness for C4: the amended claim applied to the version-0 entry
`c4bytes`. -/
theorem infe_non_v23_decodes_opaque_fallback_witness :
    ∃ s, (AtomMetaIinfInfe.mk 0 0
      (.Unknown [0, 1, 0, 2, 97, 0, 116, 0, 9, 9, 9, 9])).value = .Unknown s :=
  infe_non_v23_decodes_opaque_fallback [] 20 ⟨c4bytes, 0⟩
    (⟨0, 0, .Unknown [0, 1, 0, 2, 97, 0, 116, 0, 9, 9, 9, 9]⟩, ⟨c4bytes, 16⟩)
    rfl (by decide) (by decide)

/-- Counterexample for C4 as stated: the version-0 `infe` entry `c4bytes`,
laid out exactly in the claimed structured shape (16-bit item ID 1, 16-bit
protection index 2, item name `"a"`, content type `"t"`), decodes to the
opaque-string fallback — `isV0Or1` of the produced value is `false` — not to
the structured version-0/1 shape. -/
theorem infe_v0_not_structured_counterexample :
    AtomMetaIinfInfe.read_from [] 20 ⟨c4bytes, 0⟩ =
      some (⟨0, 0, .Unknown [0, 1, 0, 2, 97, 0, 116, 0, 9, 9, 9, 9]⟩, ⟨c4bytes, 16⟩) ∧
    (AtomMetaIinfInfeVariant.Unknown [0, 1, 0, 2, 97, 0, 116, 0, 9, 9, 9, 9]).isV0Or1 = false :=
  ⟨rfl, rfl⟩

/-- Claim C5: whenever `read_ifd_entry` returns successfully — inline values
or offset-indirected, wherever the indirected data lives — the cursor it
returns sits exactly 12 bytes past the entry start (the final
`set_position(original_position + 4)`). -/
theorem read_ifd_entry_resumes_at_entry_start_plus_12 (c : Cursor) (e : Endianness)
    (p : IFDEntry × Cursor) (h : read_ifd_entry c e = .ok p) : p.2.pos = c.pos + 12 := by
  unfold read_ifd_entry at h
  rcases h1 : c.readExact 2 with _ | ⟨bs1, c1⟩
  · rw [h1] at h; cases h
  simp only [h1] at h
  have e1 := readExact_pos h1
  rcases h2 : c1.readExact 2 with _ | ⟨bs2, c2⟩
  · rw [h2] at h; cases h
  simp only [h2] at h
  have e2 := readExact_pos h2
  rcases h3 : c2.readExact 4 with _ | ⟨bs3, c3⟩
  · rw [h3] at h; cases h
  simp only [h3] at h
  have e3 := readExact_pos h3
  rcases h4 : get_tiff_value_type_size (unpack e bs2) with _ | er | vts
  · rw [h4] at h; cases h
  · rw [h4] at h; cases h
  simp only [h4] at h
  repeat' split at h
  all_goals first
    | (injection h
       done)
    | (injection h with h5
       subst h5
       subst e1
       subst e2
       subst e3
       rfl)

/-- Witness for C5: a concrete inline BYTE entry, decoded from position 0 to
position 12. -/
theorem read_ifd_entry_resumes_at_entry_start_plus_12_witness :
    read_ifd_entry ⟨c5bytes, 0⟩ .Little = .ok (⟨1, [.BYTE 7]⟩, ⟨c5bytes, 12⟩) ∧
    (Cursor.mk c5bytes 12).pos = (Cursor.mk c5bytes 0).pos + 12 :=
  ⟨rfl, read_ifd_entry_resumes_at_entry_start_plus_12 ⟨c5bytes, 0⟩ .Little
    (⟨1, [.BYTE 7]⟩, ⟨c5bytes, 12⟩) rfl⟩

/-- Claim C6: any input whose first two bytes are neither `"II"` nor `"MM"`
makes `read_tiff` fail with the structured bad-magic error carrying exactly
those two bytes — the result is an `.err`, not a panic, and it is the same
whatever bytes follow, so nothing beyond the first two bytes is read. -/
theorem read_tiff_bad_magic_structured_error (b0 b1 : Nat) (rest : List Nat)
    (hmm : ¬(b0 = 0x4D ∧ b1 = 0x4D)) (hii : ¬(b0 = 0x49 ∧ b1 = 0x49)) :
    read_tiff ⟨b0 :: b1 :: rest, 0⟩ = .err (.badMagic [b0, b1]) := by
  have hre : Cursor.readExact ⟨b0 :: b1 :: rest, 0⟩ 2 =
      some ([b0, b1], ⟨b0 :: b1 :: rest, 2⟩) := by
    simp [Cursor.readExact]
  have e1 : ¬([b0, b1] = [0x4D, 0x4D]) := by simpa using hmm
  have e2 : ¬([b0, b1] = [0x49, 0x49]) := by simpa using hii
  unfold read_tiff
  simp only [hre, e1, e2, if_false, ite_false]

/-- Witness for C6: the two-byte input `[0, 0]`. -/
theorem read_tiff_bad_magic_structured_error_witness :
    read_tiff ⟨[0, 0], 0⟩ = .err (.badMagic [0, 0]) :=
  read_tiff_bad_magic_structured_error 0 0 [] (by decide) (by decide)

/-- Claim C7 (code bug): a JPEG whose marker at offset 2 has lead byte
`0x00` makes `get_jpeg_sections` panic (`panic!("Expected 0xFF but got
…")`, the `none` outcome of the model) — abrupt termination, not the
recoverable structured decode error the claim requires. -/
theorem jpeg_scanner_bad_marker_panics_bug :
    get_jpeg_sections [255, 216, 0, 1, 0] = none :=
  rfl

/-- Claim C8 (amended): one step of the start-of-scan entropy loop with the
previous byte `0xFF`: a next byte that is neither `0x00` nor `0xFF` nor a
restart marker `0xD0`–`0xD7` terminates the scan with the cursor rewound two
bytes past the just-read pair (final position `pos + 1 - 2`, the position of
the `0xFF`, so the next outer-loop iteration re-reads that marker); any
other next byte — `0x00`, `0xFF` (which the claim as stated omits), or
`0xD0`–`0xD7` — is absorbed: the loop appends the previous byte and
continues. -/
theorem sos_scan_absorb_and_terminate (data : List Nat) (pos prev b : Nat) (acc : List Nat)
    (fuel : Nat) (hb : data.get? pos = some b) :
    ((prev = 255 ∧ b ≠ 0 ∧ b ≠ 255 ∧ ¬(208 ≤ b ∧ b < 216)) →
      sos_scan data (fuel + 1) pos prev acc = (acc, pos + 1 - 2)) ∧
    (¬(prev = 255 ∧ b ≠ 0 ∧ b ≠ 255 ∧ ¬(208 ≤ b ∧ b < 216)) →
      sos_scan data (fuel + 1) pos prev acc = sos_scan data fuel (pos + 1) b (acc ++ [prev])) := by
  have hstep : sos_scan data (fuel + 1) pos prev acc =
      (match data.get? pos with
       | none => (acc, pos)
       | some b =>
         if prev = 255 ∧ b ≠ 0 ∧ b ≠ 255 ∧ ¬(208 ≤ b ∧ b < 216) then (acc, pos + 1 - 2)
         else sos_scan data fuel (pos + 1) b (acc ++ [prev])) := rfl
  constructor
  · intro hterm
    rw [hstep]
    simp only [hb, if_pos hterm]
  · intro hcont
    rw [hstep]
    simp only [hb, if_neg hcont]

/-- Witness for C8: both step behaviours at concrete states — termination
with rewind on `FF` followed by `0x01`, absorption on `FF` followed by
`0x00`. -/
theorem sos_scan_absorb_and_terminate_witness :
    sos_scan [255, 1] (1 + 1) 1 255 [] = ([], 1 + 1 - 2) ∧
    sos_scan [255, 0] (1 + 1) 1 255 [] = sos_scan [255, 0] 1 (1 + 1) 0 ([] ++ [255]) :=
  ⟨(sos_scan_absorb_and_terminate [255, 1] 1 255 1 [] 1 rfl).1 (by decide),
   (sos_scan_absorb_and_terminate [255, 0] 1 255 0 [] 1 rfl).2 (by decide)⟩

/-- Counterexample for C8 as stated: with the previous byte `0xFF` and the
next byte also `0xFF` — "any other byte" per the claim, since `0xFF` is
neither `0x00` nor a restart marker — the loop does NOT terminate with the
cursor rewound (which would give `([], 0)` here): it absorbs the pair and
runs to the end of input, yielding `([255], 2)`. -/
theorem sos_scan_ff_ff_absorbed_counterexample :
    sos_scan [255, 255] 2 1 255 [] = ([255], 2) ∧
    (([255] : List Nat), (2 : Nat)) ≠ (([] : List Nat), (0 : Nat)) :=
  ⟨rfl, by decide⟩

/-- Claim C9 (amended): a top-level box whose name is neither `ftyp` nor
`meta` decodes to an `Unknown` box and the cursor advances past exactly the
declared byte range (`size - 8` bytes beyond the header) whenever that range
lies within the buffer — but the box's payload is EMPTY: the bytes are read
into a local buffer and discarded (`AtomUnknown { name, data: vec![] }`),
not held in the box. -/
theorem unknown_top_atom_empty_payload_skips_range (c : Cursor) (name : List Nat)
    (size : Nat) (c2 : Cursor) (fuel : Nat)
    (hh : read_atom_header c = some ((name, size), c2))
    (hf : name ≠ str_bytes "ftyp") (hm : name ≠ str_bytes "meta")
    (hs : 8 ≤ size) (hbound : c2.pos + (size - 8) ≤ c2.data.length) :
    read_top_atom c fuel = some (.Unknown ⟨name, []⟩, ⟨c2.data, c2.pos + (size - 8)⟩) := by
  unfold read_top_atom
  simp only [hh, if_neg hf, if_neg hm]
  unfold AtomUnknown.read_from
  rw [if_neg (by omega)]
  have hmin : min (size - 8) (c2.data.length - c2.pos) = size - 8 := by omega
  rw [hmin]

/-- Witness for C9: the box `c9bytes` (name `"abcd"`, size 12). -/
theorem unknown_top_atom_empty_payload_skips_range_witness :
    read_top_atom ⟨c9bytes, 0⟩ 5 =
      some (.Unknown ⟨[97, 98, 99, 100], []⟩, ⟨c9bytes, 8 + (12 - 8)⟩) :=
  unknown_top_atom_empty_payload_skips_range ⟨c9bytes, 0⟩ [97, 98, 99, 100] 12
    ⟨c9bytes, 8⟩ 5 rfl (by decide) (by decide) (by decide) (by decide)

/-- Counterexample for C9 as stated: decoding `c9bytes` advances the cursor
correctly to 12, but the `Unknown` box holds the empty payload `[]`, not the
box's declared byte range `[1, 2, 3, 4]` — the claim that it "holds the
box's declared byte range as its payload" is false. -/
theorem unknown_top_atom_payload_discarded_counterexample :
    (read_top_atom ⟨c9bytes, 0⟩ 5).map (fun p => (p.1.unknownData, p.2.pos)) =
      some (some [], 12) ∧
    c9bytes.drop 8 = [1, 2, 3, 4] ∧ ([] : List Nat) ≠ [1, 2, 3, 4] :=
  ⟨rfl, rfl, by decide⟩
